import Mathlib

/-!
Shallow embedding of the SD/MMC SPI block-device driver of
src/station2/station2.c (the mbed-derived sd_card driver part of the file).

The bus transport underneath the driver (sd_spi_write, DMA transfer,
chip-select, clock switching) is a platform primitive outside the core; it is
modelled as an adversarial environment `Env`: a stream of bytes the card puts
on the wire (one per full-duplex exchange), a stream of poll budgets standing
for the wall-clock deadlines of the busy-wait loops, and a stream of outcomes
for the DMA completion waits.  Machine integers are modelled as `Nat` with
explicit reductions (`% 2 ^ 32`, `% 2 ^ 64`, `% 256`) where C overflow or
truncation matters.
-/

namespace SdModel

/-- Typed error results, mirroring the SD_BLOCK_DEVICE_ERROR_* codes used by
the driver (declared in sd_card.h; ERROR_NONE is the zero/success value). -/
inductive Err where
  | none | noDevice | crc | parameter | unsupported | noInit
  | write | writeProtected | erase | noResponse | unusable
  deriving DecidableEq, Repr

/-- Capacity-class tag, mirroring the card_type values SDCARD_NONE, SDCARD_V1,
SDCARD_V2, SDCARD_V2HC and CARD_UNKNOWN. -/
inductive CardType where
  | SDCARD_NONE | SDCARD_V1 | SDCARD_V2 | SDCARD_V2HC | CARD_UNKNOWN
  deriving DecidableEq, Repr

/-- The mutable fields of the card session (sd_card_t) that the driver core
reads and writes: status bit-set, capacity-class tag, sector count and the two
raw registers. -/
structure Card where
  m_Status : Nat
  card_type : CardType
  sectors : Nat
  csd : List Nat
  cid : List Nat
  deriving DecidableEq, Repr

/-- The environment: everything the card / platform chooses during a run.
`bus i` is the byte the card drives during the i-th full-duplex exchange;
`fuel k` is the number of extra poll iterations the k-th wall-clock-bounded
busy-wait gets before its deadline elapses; `dmaOk k` tells whether the k-th
DMA completion wait succeeds; `acmd41Fuel` is the number of extra iterations
the ACMD41 operating-condition poll gets before its 2000 ms deadline; and
`cardPresent` is the card-detect input. -/
structure Env where
  bus : Nat → Nat
  fuel : Nat → Nat
  dmaOk : Nat → Bool
  acmd41Fuel : Nat
  cardPresent : Bool

/-- Bus-side machine state: position in the exchange stream, the bytes the
host has transmitted so far, and counters indexing the timed waits and DMA
waits performed so far. -/
structure Bus where
  cursor : Nat
  sent : List Nat
  waits : Nat
  dmas : Nat
  deriving DecidableEq, Repr

/-- The initial bus state. -/
def Bus.init : Bus := { cursor := 0, sent := [], waits := 0, dmas := 0 }

/- Constants from the source. -/

def SPI_FILL_CHAR : Nat := 0xFF
def SPI_DATA_RESPONSE_MASK : Nat := 0x1F
def SPI_DATA_ACCEPTED : Nat := 0x05
def SPI_START_BLOCK : Nat := 0xFE
def SPI_START_BLK_MUL_WRITE : Nat := 0xFC
def SPI_STOP_TRAN : Nat := 0xFD
def R1_NO_RESPONSE : Nat := 0xFF
def R1_RESPONSE_RECV : Nat := 0x80
def R1_IDLE_STATE : Nat := 1
def R1_ERASE_RESET : Nat := 2
def R1_ILLEGAL_COMMAND : Nat := 4
def R1_COM_CRC_ERROR : Nat := 8
def R1_ERASE_SEQUENCE_ERROR : Nat := 16
def R1_ADDRESS_ERROR : Nat := 32
def R1_PARAMETER_ERROR : Nat := 64
def OCR_HCS_CCS : Nat := 1 <<< 30
def OCR_3_3V : Nat := 1 <<< 20
def STA_NOINIT : Nat := 1
def STA_NODISK : Nat := 2
def _block_size : Nat := 512
def SD_COMMAND_RETRIES : Nat := 3
def SD_COMMAND_TIMEOUT : Nat := 2000
def SD_CMD0_GO_IDLE_STATE_RETRIES : Nat := 10
def CMD8_PATTERN : Nat := 0xAA

/-- The command opcodes the driver uses (cmdSupported). -/
inductive cmdSupported where
  | CMD0_GO_IDLE_STATE
  | CMD8_SEND_IF_COND
  | CMD9_SEND_CSD
  | CMD10_SEND_CID
  | CMD12_STOP_TRANSMISSION
  | CMD13_SEND_STATUS
  | CMD16_SET_BLOCKLEN
  | CMD17_READ_SINGLE_BLOCK
  | CMD18_READ_MULTIPLE_BLOCK
  | CMD24_WRITE_BLOCK
  | CMD25_WRITE_MULTIPLE_BLOCK
  | CMD38_ERASE
  | CMD55_APP_CMD
  | CMD58_READ_OCR
  | CMD59_CRC_ON_OFF
  | ACMD23_SET_WR_BLK_ERASE_COUNT
  | ACMD41_SD_SEND_OP_COND
  deriving DecidableEq, Repr

/-- Numeric opcode of each command. -/
def cmdCode : cmdSupported → Nat
  | .CMD0_GO_IDLE_STATE => 0
  | .CMD8_SEND_IF_COND => 8
  | .CMD9_SEND_CSD => 9
  | .CMD10_SEND_CID => 10
  | .CMD12_STOP_TRANSMISSION => 12
  | .CMD13_SEND_STATUS => 13
  | .CMD16_SET_BLOCKLEN => 16
  | .CMD17_READ_SINGLE_BLOCK => 17
  | .CMD18_READ_MULTIPLE_BLOCK => 18
  | .CMD24_WRITE_BLOCK => 24
  | .CMD25_WRITE_MULTIPLE_BLOCK => 25
  | .CMD38_ERASE => 38
  | .CMD55_APP_CMD => 55
  | .CMD58_READ_OCR => 58
  | .CMD59_CRC_ON_OFF => 59
  | .ACMD23_SET_WR_BLK_ERASE_COUNT => 23
  | .ACMD41_SD_SEND_OP_COND => 41

/-- One full-duplex SPI byte exchange (the platform primitive sd_spi_write):
the host transmits `tx`, the card answers with the next byte of the stream. -/
def sd_spi_write (env : Env) (b : Bus) (tx : Nat) : Nat × Bus :=
  (env.bus b.cursor % 256,
   { b with cursor := b.cursor + 1, sent := b.sent ++ [tx % 256] })

/-- Modelled from the spec: crc.c is not under src/.  CRC-7 over command
packets, the standard SD polynomial x^7 + x^3 + 1, MSB first, zero initial
value (spec section 4.1 and the test vectors of section 8). -/
def crc7Step (c0 byte : Nat) : Nat :=
  (List.range 8).foldl
    (fun c i =>
      let bit := ((byte >>> (7 - i)) &&& 1) ^^^ ((c >>> 6) &&& 1)
      ((c * 2) % 128) ^^^ (if bit = 1 then 9 else 0))
    c0

/-- Modelled from the spec: CRC-7 of a byte sequence. -/
def crc7 (bytes : List Nat) : Nat := bytes.foldl crc7Step 0

/-- Modelled from the spec: crc.c is not under src/.  CRC-16 over data blocks,
the standard CCITT polynomial x^16 + x^12 + x^5 + 1, MSB first, zero initial
value (spec section 4.1). -/
def crc16Step (c0 byte : Nat) : Nat :=
  (List.range 8).foldl
    (fun c i =>
      let bit := ((byte >>> (7 - i)) &&& 1) ^^^ ((c >>> 15) &&& 1)
      ((c * 2) % 65536) ^^^ (if bit = 1 then 0x1021 else 0))
    c0

/-- Modelled from the spec: CRC-16 of a byte sequence. -/
def crc16 (bytes : List Nat) : Nat := bytes.foldl crc16Step 0

/-- The 6-byte command packet built by sd_cmd_spi: marker bits + opcode,
4 big-endian argument bytes (the 32-bit truncation of `arg`), and the CRC
byte: CRC-7 when crc_on, otherwise the hard-coded 0x95 / 0x87 for CMD0 / CMD8
and 0xFF for every other command. -/
def cmdPacket (crc_on : Bool) (cmd : cmdSupported) (arg : Nat) : List Nat :=
  let a := arg % 2 ^ 32
  let body := [(0x40 ||| (cmdCode cmd &&& 0x3F)) % 256,
               (a >>> 24) % 256, (a >>> 16) % 256, (a >>> 8) % 256, a % 256]
  body ++ [if crc_on then ((crc7 body <<< 1) ||| 1) % 256
           else match cmd with
             | .CMD0_GO_IDLE_STATE => 0x95
             | .CMD8_SEND_IF_COND => 0x87
             | _ => 0xFF]

/-- Transmit a list of bytes. -/
def sendPacket (env : Env) : List Nat → Bus → Bus
  | [], b => b
  | t :: ts, b => sendPacket env ts (sd_spi_write env b t).2

/-- The response poll of sd_cmd_spi: up to 16 exchanges of the fill byte,
stopping at the first byte whose high bit is clear; the last byte read is
returned in any case. -/
def sd_cmd_resp_poll (env : Env) : Nat → Bus → Nat × Bus
  | 0, b => sd_spi_write env b SPI_FILL_CHAR
  | f + 1, b =>
    let r := sd_spi_write env b SPI_FILL_CHAR
    if r.1 &&& R1_RESPONSE_RECV = 0 then r
    else sd_cmd_resp_poll env f r.2

/-- sd_cmd_spi: send the 6-byte packet (one extra fill byte after CMD12 to
discard the stuff byte), then poll up to 16 bytes for the R1 response. -/
def sd_cmd_spi (crc_on : Bool) (env : Env) (cmd : cmdSupported) (arg : Nat)
    (b : Bus) : Nat × Bus :=
  let b1 := sendPacket env (cmdPacket crc_on cmd arg) b
  let b2 := if cmd = .CMD12_STOP_TRANSMISSION
            then (sd_spi_write env b1 SPI_FILL_CHAR).2 else b1
  sd_cmd_resp_poll env 15 b2

/-- The poll body of sd_wait_ready, with `fuel` extra iterations before the
wall-clock deadline elapses (do-while: at least one exchange happens). -/
def sd_wait_ready_go (env : Env) : Nat → Bus → Bool × Bus
  | 0, b =>
    let r := sd_spi_write env b 0xFF
    (r.1 != 0, r.2)
  | f + 1, b =>
    let r := sd_spi_write env b 0xFF
    if r.1 ≠ 0 then (true, r.2) else sd_wait_ready_go env f r.2

/-- sd_wait_ready: poll fill bytes until the card releases the DO line (a
non-zero byte) or the deadline elapses.  A zero timeout (the liveness check)
means a single poll; otherwise the environment chooses how many polls fit in
the deadline. -/
def sd_wait_ready (env : Env) (timeout : Nat) (b : Bus) : Bool × Bus :=
  sd_wait_ready_go env (if timeout = 0 then 0 else env.fuel b.waits)
    { b with waits := b.waits + 1 }

/-- The poll body of sd_wait_token. -/
def sd_wait_token_go (env : Env) (token : Nat) : Nat → Bus → Bool × Bus
  | 0, b =>
    let r := sd_spi_write env b SPI_FILL_CHAR
    (r.1 == token, r.2)
  | f + 1, b =>
    let r := sd_spi_write env b SPI_FILL_CHAR
    if r.1 = token then (true, r.2) else sd_wait_token_go env token f r.2

/-- sd_wait_token: poll fill bytes for a start token within the 2000 ms
deadline. -/
def sd_wait_token (env : Env) (token : Nat) (b : Bus) : Bool × Bus :=
  sd_wait_token_go env token (env.fuel b.waits) { b with waits := b.waits + 1 }

/-- chk_crc16: verify the CRC-16 of a data block; always a match when the
administrative CRC toggle is off. -/
def chk_crc16 (crc_on : Bool) (buffer : List Nat) (crc : Nat) : Bool :=
  if crc_on then crc16 buffer == crc else true

/-- The DMA-style asynchronous transfer: `length` bytes are clocked on the
wire (receiving the card's stream into the destination). -/
def readN (env : Env) (length : Nat) (b : Bus) : List Nat × Bus :=
  ((List.range length).map (fun i => env.bus (b.cursor + i) % 256),
   { b with cursor := b.cursor + length,
            sent := b.sent ++ List.replicate length SPI_FILL_CHAR })

/-- The DMA-style asynchronous transfer, transmit side: `length` bytes of the
buffer are clocked out (the received bytes are discarded). -/
def sendN (env : Env) (buffer : List Nat) (length : Nat) (b : Bus) : Bus :=
  { b with cursor := b.cursor + length,
           sent := b.sent ++ (List.range length).map (fun i => buffer.getD i 0 % 256) }

/-- sd_spi_transfer_wait_complete: whether the in-flight DMA transfer
completes within its timeout (environment-chosen). -/
def sd_spi_transfer_wait_complete (env : Env) (b : Bus) : Bool × Bus :=
  (env.dmaOk b.dmas, { b with dmas := b.dmas + 1 })

/-- The retry loop of sd_cmd: up to SD_COMMAND_RETRIES transmissions (each
preceded by CMD55 and a ready wait when the command is application-specific),
stopping at the first attempt that draws a response. -/
def sd_cmd_attempts (crc_on : Bool) (env : Env) (cmd : cmdSupported) (arg : Nat)
    (isAcmd : Bool) : Nat → Bus → Nat × Bus
  | 0, b => (R1_NO_RESPONSE, b)
  | n + 1, b =>
    let b1 := if isAcmd then
        let r := sd_cmd_spi crc_on env .CMD55_APP_CMD 0 b
        (sd_wait_ready env SD_COMMAND_TIMEOUT r.2).2
      else b
    let r := sd_cmd_spi crc_on env cmd arg b1
    if r.1 = R1_NO_RESPONSE then sd_cmd_attempts crc_on env cmd arg isAcmd n r.2
    else r

/-- The R2 bit cascade of sd_cmd's CMD13 case (later bits override earlier
ones, exactly as the if-chain in the source does). -/
def r2_status (response : Nat) (status : Err) : Err :=
  if response = 0 then status else
  let s := status
  let s := if response &&& (1 <<< 0) ≠ 0 then Err.write else s
  let s := if response &&& (1 <<< 1) ≠ 0 then Err.writeProtected else s
  let s := if response &&& (1 <<< 2) ≠ 0 then Err.write else s
  let s := if response &&& (1 <<< 3) ≠ 0 then Err.write else s
  let s := if response &&& (1 <<< 4) ≠ 0 then Err.write else s
  let s := if response &&& (1 <<< 5) ≠ 0 then Err.writeProtected else s
  let s := if response &&& (1 <<< 6) ≠ 0 then Err.erase else s
  let s := if response &&& (1 <<< 7) ≠ 0 then Err.parameter else s
  let s := if response &&& (1 <<< 8) ≠ 0 then Err.none else s
  let s := if response &&& (1 <<< 9) ≠ 0 then Err.erase else s
  let s := if response &&& (1 <<< 10) ≠ 0 then Err.unsupported else s
  let s := if response &&& (1 <<< 11) ≠ 0 then Err.crc else s
  let s := if response &&& (1 <<< 12) ≠ 0 then Err.erase else s
  let s := if response &&& (1 <<< 13) ≠ 0 then Err.parameter else s
  if response &&& (1 <<< 14) ≠ 0 then Err.parameter else s

/-- The response-class tails of sd_cmd (the switch at the end of the
function): R7/R3 read four extra bytes (CMD8 first tags the card version-2),
R1b commands poll for ready, CMD13 reads the second status byte and runs the
R2 cascade; all other commands are plain R1. -/
def sd_cmd_tail (env : Env) (cmd : cmdSupported) (response : Nat)
    (status : Err) (c : Card) (b : Bus) : Err × Nat × Card × Bus :=
  match cmd with
  | .CMD8_SEND_IF_COND | .CMD58_READ_OCR =>
    let c1 := if cmd = .CMD8_SEND_IF_COND
              then { c with card_type := .SDCARD_V2 } else c
    let r1 := sd_spi_write env b SPI_FILL_CHAR
    let r2 := sd_spi_write env r1.2 SPI_FILL_CHAR
    let r3 := sd_spi_write env r2.2 SPI_FILL_CHAR
    let r4 := sd_spi_write env r3.2 SPI_FILL_CHAR
    (status, (r1.1 <<< 24) ||| (r2.1 <<< 16) ||| (r3.1 <<< 8) ||| r4.1, c1, r4.2)
  | .CMD12_STOP_TRANSMISSION | .CMD38_ERASE =>
    let w := sd_wait_ready env SD_COMMAND_TIMEOUT b
    (status, response, c, w.2)
  | .CMD13_SEND_STATUS =>
    let r2 := sd_spi_write env b SPI_FILL_CHAR
    let resp2 := ((response <<< 8) % 2 ^ 32) ||| r2.1
    (r2_status resp2 status, resp2, c, r2.2)
  | _ => (status, response, c, b)

/-- sd_cmd: ready wait (except CMD12/CMD0), retry loop, R1 classification
(CRC-error bit exempted for ACMD23; the illegal-command bit tags the card
unknown for CMD8), erase/address/parameter bits, then the response tail.
Returns (status, final response value, card, bus); `resp0` is the value the
caller's response variable holds before the call (it is left untouched when
the initial ready wait fails, as in the source). -/
def sd_cmd (crc_on : Bool) (env : Env) (cmd : cmdSupported) (arg : Nat)
    (isAcmd : Bool) (resp0 : Nat) (c : Card) (b : Bus) : Err × Nat × Card × Bus :=
  let w := if cmd = .CMD12_STOP_TRANSMISSION ∨ cmd = .CMD0_GO_IDLE_STATE
           then (true, b)
           else sd_wait_ready env SD_COMMAND_TIMEOUT b
  if w.1 = false then (Err.noResponse, resp0, c, w.2) else
  let a := sd_cmd_attempts crc_on env cmd arg isAcmd SD_COMMAND_RETRIES w.2
  let response := a.1
  if response = R1_NO_RESPONSE then (Err.noResponse, response, c, a.2) else
  if response &&& R1_COM_CRC_ERROR ≠ 0 ∧ cmd ≠ .ACMD23_SET_WR_BLK_ERASE_COUNT then
    (Err.crc, response, c, a.2)
  else if response &&& R1_ILLEGAL_COMMAND ≠ 0 then
    (Err.unsupported, response,
     if cmd = .CMD8_SEND_IF_COND then { c with card_type := .CARD_UNKNOWN } else c,
     a.2)
  else
    let status :=
      if response &&& R1_ERASE_RESET ≠ 0 ∨ response &&& R1_ERASE_SEQUENCE_ERROR ≠ 0
      then Err.erase
      else if response &&& R1_ADDRESS_ERROR ≠ 0 ∨ response &&& R1_PARAMETER_ERROR ≠ 0
      then Err.parameter
      else Err.none
    sd_cmd_tail env cmd response status c a.2

/-- sd_cmd8: send the interface-condition command with the fixed check
pattern and voltage code; on success for a version-2-tagged card, a mismatch
of the echoed pattern is fatal and tags the card unknown. -/
def sd_cmd8 (crc_on : Bool) (env : Env) (c : Card) (b : Bus) : Err × Card × Bus :=
  let arg := CMD8_PATTERN ||| (0x1 <<< 8)
  let r := sd_cmd crc_on env .CMD8_SEND_IF_COND arg false 0 c b
  if r.1 = Err.none ∧ r.2.2.1.card_type = .SDCARD_V2 then
    if r.2.1 &&& 0xFFF ≠ arg then
      (Err.unusable, { r.2.2.1 with card_type := .CARD_UNKNOWN }, r.2.2.2)
    else (r.1, r.2.2.1, r.2.2.2)
  else (r.1, r.2.2.1, r.2.2.2)

/-- sd_read_bytes: wait for the start token, read `length` data bytes and the
two CRC bytes, and verify the CRC-16.  The buffer contents are returned even
on a CRC mismatch (the source has already written them). -/
def sd_read_bytes (crc_on : Bool) (env : Env) (b : Bus) (length : Nat) :
    Err × List Nat × Bus :=
  let t := sd_wait_token env SPI_START_BLOCK b
  if t.1 = false then (Err.noResponse, [], t.2) else
  let d := readN env length t.2
  let h := sd_spi_write env d.2 SPI_FILL_CHAR
  let l := sd_spi_write env h.2 SPI_FILL_CHAR
  let crc := ((h.1 <<< 8) ||| l.1) % 65536
  if chk_crc16 crc_on d.1 crc = false then (Err.crc, d.1, l.2)
  else (Err.none, d.1, l.2)

/-- Modelled from the spec: ext_bits lives in util.c, which is not under
src/.  Bit `p` of the 16-byte register lives in byte `15 - p / 8` (the array
is most-significant-byte first), at bit position `p % 8` within that byte. -/
def csdBit (data : List Nat) (p : Nat) : Nat :=
  (data.getD (15 - p / 8) 0 >>> (p % 8)) &&& 1

/-- Modelled from the spec: ext_bits(data, msb, lsb) assembles bits
msb..lsb inclusive, least-significant first. -/
def ext_bits_go (data : List Nat) (lsb : Nat) : Nat → Nat
  | 0 => 0
  | n + 1 => ext_bits_go data lsb n + csdBit data (lsb + n) * 2 ^ n

/-- Modelled from the spec: arbitrary-width bitfield extraction over the
packed 16-byte capacity register. -/
def ext_bits (data : List Nat) (msb lsb : Nat) : Nat :=
  ext_bits_go data lsb (msb + 1 - lsb)

/-- The CSD decode of in_sd_spi_sectors: branch on the 2-bit structure
version; version 0 computes BLOCKNR * BLOCK_LEN / 512 with 32-bit
intermediates (block_len, mult, blocknr are uint32, capacity is uint64);
version 1 computes (C_SIZE + 1) << 10 in 32-bit arithmetic (hc_c_size is a
uint32, so the shift wraps at 2^32) before widening; an unknown version
yields 0. -/
def csd_sectors (csd : List Nat) : Nat :=
  let csd_structure := ext_bits csd 127 126
  if csd_structure = 0 then
    let c_size := ext_bits csd 73 62
    let c_size_mult := ext_bits csd 49 47
    let read_bl_len := ext_bits csd 83 80
    let block_len := 2 ^ read_bl_len % 2 ^ 32
    let mult := 2 ^ (c_size_mult + 2) % 2 ^ 32
    let blocknr := (c_size + 1) * mult % 2 ^ 32
    let capacity := blocknr * block_len % 2 ^ 64
    capacity / _block_size
  else if csd_structure = 1 then
    let hc_c_size := ext_bits csd 69 48
    (hc_c_size + 1) <<< 10 % 2 ^ 32
  else 0

/-- in_sd_spi_sectors: CMD9, read the 16-byte CSD (stored in the session even
when its CRC fails), then decode the sector count; any failure yields 0. -/
def in_sd_spi_sectors (crc_on : Bool) (env : Env) (c : Card) (b : Bus) :
    Nat × Card × Bus :=
  let r := sd_cmd crc_on env .CMD9_SEND_CSD 0 false 0 c b
  if r.1 ≠ Err.none then (0, r.2.2.1, r.2.2.2) else
  let rb := sd_read_bytes crc_on env r.2.2.2 16
  let c1 := { r.2.2.1 with csd := rb.2.1 }
  if rb.1 ≠ Err.none then (0, c1, rb.2.2) else
  (csd_sectors rb.2.1, c1, rb.2.2)

/-- Events of a public operation's run: lock / bus acquisition and release,
and byte exchanges. -/
inductive Ev where
  | lockAcq | lockRel | busAcq | busRel | xchg (tx : Nat)
  deriving DecidableEq, Repr

/-- sd_acquire: sd_lock first, then sd_spi_acquire (card lock, then bus). -/
def sd_acquire_trace : List Ev := [Ev.lockAcq, Ev.busAcq]

/-- sd_release: sd_unlock first, then sd_spi_release (the lock is released
first and the bus second, i.e. in the same order as acquisition). -/
def sd_release_trace : List Ev := [Ev.lockRel, Ev.busRel]

/-- The event trace of a public operation wrapped by sd_acquire / sd_release:
the byte exchanges it performed, bracketed by the acquire and release
sequences. -/
def opTrace (b0 b1 : Bus) : List Ev :=
  sd_acquire_trace ++ (b1.sent.drop b0.sent.length).map Ev.xchg ++ sd_release_trace

/-- in_sd_read_blocks's receive loop: per block, wait for the start token,
stream 512 bytes, check the previous block's deferred CRC, wait for the DMA
to complete (a failed wait overwrites any CRC error with NoResponse and
breaks), then read the current block's CRC for deferred checking. -/
def in_sd_read_blocks_loop (crc_on : Bool) (env : Env) :
    Nat → Err → List (List Nat) → Nat → Bus → Err × List (List Nat) × Nat × Bus
  | 0, status, blocks, prevCrc, b => (status, blocks, prevCrc, b)
  | n + 1, status, blocks, prevCrc, b =>
    if status ≠ Err.none then (status, blocks, prevCrc, b) else
    let t := sd_wait_token env SPI_START_BLOCK b
    if t.1 = false then (Err.noResponse, blocks, prevCrc, t.2) else
    let d := readN env _block_size t.2
    let status1 :=
      if blocks.length ≠ 0 ∧ chk_crc16 crc_on (blocks.getLastD []) prevCrc = false
      then Err.crc else status
    let w := sd_spi_transfer_wait_complete env d.2
    if w.1 = false then (Err.noResponse, blocks, prevCrc, w.2) else
    let h := sd_spi_write env w.2 SPI_FILL_CHAR
    let l := sd_spi_write env h.2 SPI_FILL_CHAR
    in_sd_read_blocks_loop crc_on env n status1 (blocks ++ [d.1])
      (((h.1 <<< 8) ||| l.1) % 65536) l.2

/-- in_sd_read_blocks: reject when NotInitialized/NoMedium is set or the
64-bit sum sector + count exceeds the known sector count; compute the wire
address (sector for high-capacity cards, byte offset otherwise, in uint64
arithmetic); issue CMD17/CMD18; run the receive loop; send CMD12 once for
multi-block transfers regardless of mid-stream errors (its status is
discarded); finally check the deferred CRC of the last block. -/
def in_sd_read_blocks (crc_on : Bool) (env : Env) (c : Card) (b : Bus)
    (sector count : Nat) : Err × List (List Nat) × Card × Bus :=
  if c.m_Status &&& (STA_NOINIT ||| STA_NODISK) ≠ 0 then (Err.parameter, [], c, b) else
  if (sector + count) % 2 ^ 64 > c.sectors then (Err.parameter, [], c, b) else
  let addr := if c.card_type = .SDCARD_V2HC then sector
              else sector * _block_size % 2 ^ 64
  let r :=
    if count = 1 then sd_cmd crc_on env .CMD17_READ_SINGLE_BLOCK addr false 0 c b
    else sd_cmd crc_on env .CMD18_READ_MULTIPLE_BLOCK addr false 0 c b
  if r.1 ≠ Err.none then (r.1, [], r.2.2.1, r.2.2.2) else
  let lp := in_sd_read_blocks_loop crc_on env count Err.none [] 0 r.2.2.2
  let af := if count > 1
            then (sd_cmd crc_on env .CMD12_STOP_TRANSMISSION 0 false 0 r.2.2.1 lp.2.2.2).2.2
            else (r.2.2.1, lp.2.2.2)
  let status :=
    if lp.1 = Err.none ∧ chk_crc16 crc_on (lp.2.1.getLastD []) lp.2.2.1 = false
    then Err.crc else lp.1
  (status, lp.2.1, af.1, af.2)

/-- sd_read_blocks: the public read, wrapped in sd_acquire / sd_release. -/
def sd_read_blocks (crc_on : Bool) (env : Env) (c : Card) (b : Bus)
    (sector count : Nat) : Err × List (List Nat) × Card × Bus × List Ev :=
  let r := in_sd_read_blocks crc_on env c b sector count
  (r.1, r.2.1, r.2.2.1, r.2.2.2, opTrace b r.2.2.2)

/-- sd_write_block: start token, stream the block, send the CRC-16 (0xFFFF
when CRC is off), read the 1-byte data-response token and require its low 5
bits to be the accepted pattern, then wait out the card's programming time.
Every failure is a Write error. -/
def sd_write_block (crc_on : Bool) (env : Env) (b : Bus) (buffer : List Nat)
    (token : Nat) (length : Nat) : Err × Bus :=
  let b1 := (sd_spi_write env b token).2
  let b2 := sendN env buffer length b1
  let crc := if crc_on then crc16 ((List.range length).map (fun i => buffer.getD i 0 % 256))
             else 0xFFFF
  let w := sd_spi_transfer_wait_complete env b2
  if w.1 = false then (Err.write, w.2) else
  let b3 := (sd_spi_write env w.2 ((crc >>> 8) % 256)).2
  let b4 := (sd_spi_write env b3 (crc % 256)).2
  let r := sd_spi_write env b4 SPI_FILL_CHAR
  if r.1 &&& SPI_DATA_RESPONSE_MASK ≠ SPI_DATA_ACCEPTED then (Err.write, r.2) else
  let w2 := sd_wait_ready env SD_COMMAND_TIMEOUT r.2
  if w2.1 = false then (Err.write, w2.2) else
  (Err.none, w2.2)

/-- The do-while loop of the multi-block write path: write block i, continue
while blocks remain and the last write succeeded. -/
def in_sd_write_blocks_loop (crc_on : Bool) (env : Env) (data : Nat → List Nat) :
    Nat → Nat → Bus → Err × Bus
  | _, 0, b => (Err.none, b)
  | i, n + 1, b =>
    let r := sd_write_block crc_on env b (data i) SPI_START_BLK_MUL_WRITE _block_size
    if n = 0 then r
    else if r.1 = Err.none then in_sd_write_blocks_loop crc_on env data (i + 1) n r.2
    else r

/-- The common epilogue of in_sd_write_blocks: the CMD13 status query whose
result is what the operation returns. -/
def in_sd_write_finish (crc_on : Bool) (env : Env) (c : Card) (b : Bus) :
    Err × Card × Bus :=
  let r := sd_cmd crc_on env .CMD13_SEND_STATUS 0 false 0 c b
  (r.1, r.2.2.1, r.2.2.2)

/-- in_sd_write_blocks: bounds and initialization checks before any bus
traffic; wire-address computation as for reads; single-block path CMD24 then
sd_write_block (whose result the source discards); multi-block path ACMD23
pre-erase hint (result discarded), CMD25, the block loop, the stop-transfer
token; both paths end with the CMD13 status query whose status is returned. -/
def in_sd_write_blocks (crc_on : Bool) (env : Env) (c : Card) (b : Bus)
    (data : Nat → List Nat) (sector count : Nat) : Err × Card × Bus :=
  if (sector + count) % 2 ^ 64 > c.sectors then (Err.parameter, c, b) else
  if c.m_Status &&& (STA_NOINIT ||| STA_NODISK) ≠ 0 then (Err.parameter, c, b) else
  let addr := if c.card_type = .SDCARD_V2HC then sector
              else sector * _block_size % 2 ^ 64
  if count = 1 then
    let r := sd_cmd crc_on env .CMD24_WRITE_BLOCK addr false 0 c b
    if r.1 ≠ Err.none then (r.1, r.2.2.1, r.2.2.2) else
    let wb := sd_write_block crc_on env r.2.2.2 (data 0) SPI_START_BLOCK _block_size
    in_sd_write_finish crc_on env r.2.2.1 wb.2
  else
    let pre := sd_cmd crc_on env .ACMD23_SET_WR_BLK_ERASE_COUNT count true 0 c b
    let r := sd_cmd crc_on env .CMD25_WRITE_MULTIPLE_BLOCK addr false 0 pre.2.2.1 pre.2.2.2
    if r.1 ≠ Err.none then (r.1, r.2.2.1, r.2.2.2) else
    let lp := in_sd_write_blocks_loop crc_on env data 0 count r.2.2.2
    let b1 := (sd_spi_write env lp.2 SPI_STOP_TRAN).2
    in_sd_write_finish crc_on env r.2.2.1 b1

/-- sd_write_blocks: the public write, wrapped in sd_acquire / sd_release. -/
def sd_write_blocks (crc_on : Bool) (env : Env) (c : Card) (b : Bus)
    (data : Nat → List Nat) (sector count : Nat) : Err × Card × Bus × List Ev :=
  let r := in_sd_write_blocks crc_on env c b data sector count
  (r.1, r.2.1, r.2.2, opTrace b r.2.2)

/-- sd_spi_sectors: the public sector-count query, wrapped in
sd_acquire / sd_release. -/
def sd_spi_sectors (crc_on : Bool) (env : Env) (c : Card) (b : Bus) :
    Nat × Card × Bus × List Ev :=
  let r := in_sd_spi_sectors crc_on env c b
  (r.1, r.2.1, r.2.2, opTrace b r.2.2)

/-- The CMD0 retry loop of sd_go_idle_state: up to 10 attempts until the R1
response equals the idle-state bit alone. -/
def sd_go_idle_state_go (crc_on : Bool) (env : Env) (resp : Nat) (c : Card) (b : Bus) :
    Nat → Nat × Card × Bus
  | 0 => (resp, c, b)
  | n + 1 =>
    let r := sd_cmd crc_on env .CMD0_GO_IDLE_STATE 0 false resp c b
    if r.2.1 = R1_IDLE_STATE then (r.2.1, r.2.2.1, r.2.2.2)
    else sd_go_idle_state_go crc_on env r.2.1 r.2.2.1 r.2.2.2 n

/-- sd_go_idle_state. -/
def sd_go_idle_state (crc_on : Bool) (env : Env) (c : Card) (b : Bus) :
    Nat × Card × Bus :=
  sd_go_idle_state_go crc_on env R1_NO_RESPONSE c b SD_CMD0_GO_IDLE_STATE_RETRIES

/-- The CMD59 CRC-enable retry loop of sd_init_medium (do-while with
--retries && status != NONE: at most three transmissions). -/
def sd_init_medium_crc59 (crc_on : Bool) (env : Env) (c : Card) (b : Bus) :
    Nat → Err × Card × Bus
  | 0 => (Err.none, c, b)
  | n + 1 =>
    let r := sd_cmd crc_on env .CMD59_CRC_ON_OFF 1 false 0 c b
    if n = 0 then (r.1, r.2.2.1, r.2.2.2)
    else if r.1 ≠ Err.none then sd_init_medium_crc59 crc_on env r.2.2.1 r.2.2.2 n
    else (r.1, r.2.2.1, r.2.2.2)

/-- The ACMD41 operating-condition poll of sd_init_medium: repeat while the
R1 idle bit is set and the 2000 ms deadline has not elapsed (the environment
grants `fuel` extra iterations). -/
def sd_init_acmd41 (crc_on : Bool) (env : Env) (arg : Nat) (resp : Nat)
    (c : Card) (b : Bus) : Nat → Err × Nat × Card × Bus
  | 0 => sd_cmd crc_on env .ACMD41_SD_SEND_OP_COND arg true resp c b
  | f + 1 =>
    let r := sd_cmd crc_on env .ACMD41_SD_SEND_OP_COND arg true resp c b
    if r.2.1 &&& R1_IDLE_STATE ≠ 0 then
      sd_init_acmd41 crc_on env arg r.2.1 r.2.2.1 r.2.2.2 f
    else r

/-- sd_init_medium: reset (up to 10 CMD0 attempts), CMD8 probe (an
unsupported result is tolerated as a version-1 card), optional CMD59 CRC
enable, CMD58 OCR read with the 3.3 V check, the ACMD41 poll (note that when
the poll exits by deadline with the idle bit still set, the function tags the
card unknown but returns the status of the last ACMD41 command, which can be
ERROR_NONE), capacity-class resolution, and the CMD59 CRC disable when CRC is
off. -/
def sd_init_medium (crc_on : Bool) (env : Env) (c : Card) (b : Bus) :
    Err × Card × Bus :=
  let g := sd_go_idle_state crc_on env c b
  if g.1 ≠ R1_IDLE_STATE then (Err.noDevice, g.2.1, g.2.2) else
  let s8 := sd_cmd8 crc_on env g.2.1 g.2.2
  if s8.1 ≠ Err.none ∧ s8.1 ≠ Err.unsupported then s8 else
  let e := if crc_on then sd_init_medium_crc59 crc_on env s8.2.1 s8.2.2 3
           else (s8.1, s8.2.1, s8.2.2)
  let o := sd_cmd crc_on env .CMD58_READ_OCR 0 false 0 e.2.1 e.2.2
  if o.1 ≠ Err.none then (o.1, o.2.2.1, o.2.2.2) else
  if o.2.1 &&& OCR_3_3V = 0 then
    (Err.unusable, { o.2.2.1 with card_type := .CARD_UNKNOWN }, o.2.2.2) else
  let arg := if o.2.2.1.card_type = .SDCARD_V2 then OCR_HCS_CCS else 0
  let a := sd_init_acmd41 crc_on env arg 0 o.2.2.1 o.2.2.2 env.acmd41Fuel
  if a.1 ≠ Err.none ∨ a.2.1 ≠ 0 then
    (a.1, { a.2.2.1 with card_type := .CARD_UNKNOWN }, a.2.2.2) else
  let v := if a.2.2.1.card_type = .SDCARD_V2 then
      let o2 := sd_cmd crc_on env .CMD58_READ_OCR 0 false 0 a.2.2.1 a.2.2.2
      if o2.1 = Err.none ∧ o2.2.1 &&& OCR_HCS_CCS ≠ 0 then
        (o2.1, { o2.2.2.1 with card_type := .SDCARD_V2HC }, o2.2.2.2)
      else (o2.1, o2.2.2.1, o2.2.2.2)
    else (a.1, { a.2.2.1 with card_type := .SDCARD_V1 }, a.2.2.2)
  if crc_on = false then
    let d := sd_cmd crc_on env .CMD59_CRC_ON_OFF 0 false 0 v.2.1 v.2.2
    (d.1, d.2.2.1, d.2.2.2)
  else v

/-- Modelled from the spec: sd_card_detect is not under src/.  Spec section
4.3: the detect state confirms medium presence; absence yields the no-medium
status bit, presence clears it. -/
def sd_card_detect (env : Env) (c : Card) : Card :=
  if env.cardPresent then { c with m_Status := c.m_Status - (c.m_Status &&& STA_NODISK) }
  else { c with m_Status := c.m_Status ||| STA_NODISK }

/-- sd_init: detect the medium and bail out (releasing only the lock) when
absent or when already initialized; otherwise acquire the bus, run the medium
state machine, read the geometry (CMD9/CSD), the CID (CMD10) and fix the
block length (CMD16); only after all of these succeed is NotInitialized
cleared.  Returns the status bits together with the final session state and
the event trace. -/
def sd_init (crc_on : Bool) (env : Env) (c0 : Card) (b : Bus) :
    Nat × Card × Bus × List Ev :=
  let c := sd_card_detect env c0
  if c.m_Status &&& STA_NODISK ≠ 0 then (c.m_Status, c, b, [Ev.lockAcq, Ev.lockRel]) else
  if c.m_Status &&& STA_NOINIT = 0 then (c.m_Status, c, b, [Ev.lockAcq, Ev.lockRel]) else
  let c1 := { c with card_type := CardType.SDCARD_NONE }
  let m := sd_init_medium crc_on env c1 b
  if m.1 ≠ Err.none then (m.2.1.m_Status, m.2.1, m.2.2, opTrace b m.2.2) else
  let sec := in_sd_spi_sectors crc_on env m.2.1 m.2.2
  let c2 := { sec.2.1 with sectors := sec.1 }
  if sec.1 = 0 then (c2.m_Status, c2, sec.2.2, opTrace b sec.2.2) else
  let t10 := sd_cmd crc_on env .CMD10_SEND_CID 0 false 0 c2 sec.2.2
  if t10.1 ≠ Err.none then
    (t10.2.2.1.m_Status, t10.2.2.1, t10.2.2.2, opTrace b t10.2.2.2) else
  let rc := sd_read_bytes crc_on env t10.2.2.2 16
  let c3 := { t10.2.2.1 with cid := rc.2.1 }
  if rc.1 ≠ Err.none then (c3.m_Status, c3, rc.2.2, opTrace b rc.2.2) else
  let t16 := sd_cmd crc_on env .CMD16_SET_BLOCKLEN _block_size false 0 c3 rc.2.2
  if t16.1 ≠ Err.none then
    (t16.2.2.1.m_Status, t16.2.2.1, t16.2.2.2, opTrace b t16.2.2.2) else
  let c4 := { t16.2.2.1 with
              m_Status := t16.2.2.1.m_Status - (t16.2.2.1.m_Status &&& STA_NOINIT) }
  (c4.m_Status, c4, t16.2.2.2, opTrace b t16.2.2.2)

/-- The 3-attempt raw-command poll of sd_spi_test_com. -/
def sd_test_com_poll (crc_on : Bool) (env : Env) (cmd : cmdSupported) :
    Nat → Bus → Bool × Bus
  | 0, b => (false, b)
  | n + 1, b =>
    let r := sd_cmd_spi crc_on env cmd 0 b
    if r.1 ≠ R1_NO_RESPONSE then (true, r.2)
    else sd_test_com_poll crc_on env cmd n r.2

/-- sd_spi_test_com: the liveness check.  For an initialized session, a held
DO line or any CMD13 response means the card is alive, and retry exhaustion
re-asserts NotInitialized; for an uninitialized session, the capacity tag is
reset and a raw CMD0 probe is attempted. -/
def sd_spi_test_com (crc_on : Bool) (env : Env) (c : Card) (b : Bus) :
    Bool × Card × Bus × List Ev :=
  if c.m_Status &&& STA_NOINIT = 0 then
    let w := sd_wait_ready env 0 b
    if w.1 then
      let p := sd_test_com_poll crc_on env .CMD13_SEND_STATUS SD_COMMAND_RETRIES w.2
      let c1 := if p.1 then c else { c with m_Status := c.m_Status ||| STA_NOINIT }
      (p.1, c1, p.2, opTrace b p.2)
    else (true, c, w.2, opTrace b w.2)
  else
    let c1 := { c with card_type := CardType.SDCARD_NONE }
    let w := sd_wait_ready env 0 b
    if w.1 then
      let p := sd_test_com_poll crc_on env .CMD0_GO_IDLE_STATE SD_COMMAND_RETRIES w.2
      (p.1, c1, p.2, opTrace b p.2)
    else (false, c1, w.2, opTrace b w.2)

/-! Concrete environments and session states used to evaluate the model on
closed runs. -/

/-- An environment whose card never drives the bus (all-zero bytes) and whose
deadlines elapse immediately. -/
def envSilent : Env :=
  { bus := fun _ => 0, fuel := fun _ => 0, dmaOk := fun _ => true,
    acmd41Fuel := 0, cardPresent := true }

/-- An environment that answers the initial ready poll and then responds to
the first command with a clean R1, leaving the line low afterwards. -/
def envReady : Env :=
  { bus := fun p => if p = 0 then 0xFF else 0,
    fuel := fun _ => 0, dmaOk := fun _ => true,
    acmd41Fuel := 0, cardPresent := true }

/-- A ready, uninitialized standard-capacity session with one known sector. -/
def cardSmall : Card :=
  { m_Status := 0, card_type := .SDCARD_V1, sectors := 1, csd := [], cid := [] }

/-- A ready standard-capacity session whose sector count is the largest the
version-0 geometry decode can produce (2^27 sectors). -/
def cardBig : Card :=
  { m_Status := 0, card_type := .SDCARD_V1, sectors := 2 ^ 27, csd := [], cid := [] }

/-- The card-side byte stream of the C1 run: a version-2 card that completes
reset, the CMD8 probe and the OCR read, then answers every ACMD41 with the
idle bit still set until the 2000 ms deadline elapses, yet answers the
subsequent CSD/CID/CMD16 phase normally. -/
def busC1 (p : Nat) : Nat :=
  if p = 6 ∨ p = 17 ∨ p = 38 ∨ p = 46 ∨ p = 54 ∨ p = 62 ∨ p = 70 ∨ p = 78 then 1
  else if p = 18 then 0xAA
  else if p = 28 then 0x10
  else if p = 87 ∨ p = 114 then 0xFE
  else if p = 88 then 0x40
  else if p = 14 ∨ p = 15 ∨ p = 16 ∨ p = 26 ∨ p = 27 ∨ p = 29 ∨ p = 30 ∨ p = 86
          ∨ (89 ≤ p ∧ p ≤ 105) ∨ p = 113 ∨ (115 ≤ p ∧ p ≤ 132) ∨ p = 140 then 0
  else 0xFF

/-- The C1 environment: the ACMD41 poll is granted two extra iterations and
then its deadline elapses with the idle bit never cleared. -/
def envC1 : Env :=
  { bus := busC1, fuel := fun _ => 0, dmaOk := fun _ => true,
    acmd41Fuel := 2, cardPresent := true }

/-- A fresh session as constructed by sd_spi_ctor: only NotInitialized set. -/
def cardFresh : Card :=
  { m_Status := STA_NOINIT, card_type := .SDCARD_NONE, sectors := 0,
    csd := [], cid := [] }

/-- A ready session with two known sectors. -/
def cardTwo : Card :=
  { m_Status := 0, card_type := .SDCARD_V1, sectors := 2, csd := [], cid := [] }

/-- A ready high-capacity session whose whole 64-bit sector space is in
bounds. -/
def cardHuge : Card :=
  { m_Status := 0, card_type := .SDCARD_V2HC, sectors := 2 ^ 64 - 1,
    csd := [], cid := [] }

/-- An all-zero data source for write runs. -/
def zdata : Nat → List Nat := fun _ => List.replicate 512 0

/-- The card-side stream of the C6 run: a clean R1 to CMD24, a data-response
token whose low five bits are not the accepted pattern (0x1F), and a clean
CMD13 status afterwards. -/
def busC6 (p : Nat) : Nat :=
  if p = 523 then 0x1F
  else if p = 7 ∨ p = 531 ∨ p = 532 then 0
  else 0xFF

/-- The C6 environment. -/
def envC6 : Env :=
  { bus := busC6, fuel := fun _ => 0, dmaOk := fun _ => true,
    acmd41Fuel := 0, cardPresent := true }

/-- The card-side stream of the C5 counterexample run: a two-block read in
which block 0 arrives with a wrong CRC (wire CRC 1 against a computed CRC 0)
and the DMA completion wait of block 1 then times out. -/
def busC5ce (p : Nat) : Nat :=
  if p = 8 ∨ p = 523 then 0xFE
  else if p = 522 then 1
  else if p = 7 ∨ p = 1043 then 0
  else if (9 ≤ p ∧ p ≤ 521) ∨ (524 ≤ p ∧ p ≤ 1042) then 0
  else 0xFF

/-- The C5 counterexample environment: the second DMA wait fails. -/
def envC5ce : Env :=
  { bus := busC5ce, fuel := fun _ => 0, dmaOk := fun k => k == 0,
    acmd41Fuel := 0, cardPresent := true }

/-- The card-side stream of the C9 demonstration runs, parameterized by the
R1 byte `r` the card answers to ACMD23 with: a cooperative two-block write in
which every data block is accepted and the final CMD13 status is clean. -/
def busC9 (r : Nat) (p : Nat) : Nat :=
  if p = 15 then r
  else if p = 7 ∨ p = 23 ∨ p = 1066 ∨ p = 1067 then 0
  else if p = 539 ∨ p = 1056 then 0xE5
  else 0xFF

/-- The C9 demonstration environment. -/
def envC9 (r : Nat) : Env :=
  { bus := busC9 r, fuel := fun _ => 0, dmaOk := fun _ => true,
    acmd41Fuel := 0, cardPresent := true }

/-- The card-side stream of the C5 multi-block read family: `n` blocks of
all-zero data with immediate start tokens; every block carries the correct
CRC-16 (zero) except block `k`, whose wire CRC is 1; the epilogue answers
CMD12 cleanly.  `M = min (k+2) n` is the number of receive iterations the
run performs. -/
def readEnvBus (n k p : Nat) : Nat :=
  if p < 8 then (if p = 7 then 0 else 0xFF)
  else
    let q := p - 8
    if q < 515 * min (k + 2) n then
      (if q % 515 = 0 then 0xFE
       else if q % 515 = 514 ∧ q / 515 = k then 1 else 0)
    else (if q - 515 * min (k + 2) n = 7 then 0 else 0xFF)

/-- The C5 multi-block read environment for `n` blocks with block `k`
corrupted. -/
def readEnv (n k : Nat) : Env :=
  { bus := readEnvBus n k, fuel := fun _ => 0, dmaOk := fun _ => true,
    acmd41Fuel := 0, cardPresent := true }

/-- The all-zero 512-byte block. -/
def zeroBlock : List Nat := List.replicate 512 0

/-- The deferred-CRC value the receive loop of the C5 family run holds before
iteration `i`: zero initially, afterwards the wire CRC of the previous block
(1 exactly when that block was the corrupted block `k`). -/
def C5pc (k i : Nat) : Nat := if i = 0 then 0 else if i - 1 = k then 1 else 0

/-- The bus state before receive iteration `i` of the C5 family run: the
8-byte CMD18 prologue `S0` followed by 515 host fill bytes per completed
block. -/
def C5bus (S0 : List Nat) (i : Nat) : Bus :=
  { cursor := 8 + 515 * i, sent := S0 ++ List.replicate (515 * i) 0xFF,
    waits := 1 + i, dmas := i }

/-- The structure-version-0 capacity register of the spec's worked example:
size 0xFFF, size-multiplier 0x7, read-block-length exponent 9. -/
def csdV0ex : List Nat := [0, 0, 0, 0, 0, 9, 3, 0xFF, 0xC0, 3, 0x80, 0, 0, 0, 0, 0]

/-- A structure-version-1 capacity register whose 22-bit device-size field is
maximal (0x3FFFFF). -/
def csdV1max : List Nat := [0x40, 0, 0, 0, 0, 0, 0, 0x3F, 0xFF, 0xFF, 0, 0, 0, 0, 0, 0]

/-- An environment that answers the initial ready poll with 0xFF and the
first command's response poll with an R1 byte whose command-CRC-error bit is
set. -/
def envCrcResp : Env :=
  { bus := fun p => if p = 0 then 0xFF else if p = 7 then 8 else 0,
    fuel := fun _ => 0, dmaOk := fun _ => true,
    acmd41Fuel := 0, cardPresent := true }

/-- The 32-bit wire address the driver computes for a request: the sector
number itself for high-capacity cards, the byte offset sector * 512 (in
64-bit arithmetic) otherwise, truncated to the command's 32-bit argument. -/
def wireAddr (c : Card) (sector : Nat) : Nat :=
  (if c.card_type = .SDCARD_V2HC then sector else sector * _block_size % 2 ^ 64) % 2 ^ 32

/-! Helper lemmas about the bus trace. -/

/-- `b'` extends `b`: the host-transmitted byte list only grows. -/
def SentExt (b b' : Bus) : Prop := ∃ t, b'.sent = b.sent ++ t

theorem sentExt_refl (b : Bus) : SentExt b b := ⟨[], by simp⟩

theorem sentExt_trans {a b c : Bus} (h1 : SentExt a b) (h2 : SentExt b c) :
    SentExt a c := by
  obtain ⟨t1, e1⟩ := h1
  obtain ⟨t2, e2⟩ := h2
  exact ⟨t1 ++ t2, by rw [e2, e1, List.append_assoc]⟩

theorem sentExt_write (env : Env) (b : Bus) (t : Nat) :
    SentExt b (sd_spi_write env b t).2 := ⟨[t % 256], rfl⟩

theorem sentExt_readN (env : Env) (n : Nat) (b : Bus) :
    SentExt b (readN env n b).2 := ⟨List.replicate n SPI_FILL_CHAR, rfl⟩

theorem sentExt_sendN (env : Env) (buf : List Nat) (n : Nat) (b : Bus) :
    SentExt b (sendN env buf n b) :=
  ⟨(List.range n).map (fun i => buf.getD i 0 % 256), rfl⟩

theorem sentExt_dma (env : Env) (b : Bus) :
    SentExt b (sd_spi_transfer_wait_complete env b).2 := ⟨[], by simp [sd_spi_transfer_wait_complete]⟩

theorem sentExt_poll (env : Env) (f : Nat) (b : Bus) :
    SentExt b (sd_cmd_resp_poll env f b).2 := by
  induction f generalizing b with
  | zero => exact sentExt_write env b SPI_FILL_CHAR
  | succ f ih =>
    simp only [sd_cmd_resp_poll]
    split
    · exact sentExt_write env b SPI_FILL_CHAR
    · exact sentExt_trans (sentExt_write env b SPI_FILL_CHAR) (ih _)

theorem sentExt_wait_ready_go (env : Env) (f : Nat) (b : Bus) :
    ∃ m, (sd_wait_ready_go env f b).2.sent = b.sent ++ List.replicate m 0xFF := by
  induction f generalizing b with
  | zero => exact ⟨1, rfl⟩
  | succ f ih =>
    simp only [sd_wait_ready_go]
    split
    · exact ⟨1, rfl⟩
    · obtain ⟨m, hm⟩ := ih (sd_spi_write env b 0xFF).2
      refine ⟨m + 1, ?_⟩
      rw [hm]
      simp [sd_spi_write, List.append_assoc, List.replicate_succ]

theorem sentExt_wait_ready (env : Env) (t : Nat) (b : Bus) :
    ∃ m, (sd_wait_ready env t b).2.sent = b.sent ++ List.replicate m 0xFF := by
  unfold sd_wait_ready
  exact sentExt_wait_ready_go env _ _

theorem sentExt_wait_ready' (env : Env) (t : Nat) (b : Bus) :
    SentExt b (sd_wait_ready env t b).2 := by
  obtain ⟨m, hm⟩ := sentExt_wait_ready env t b
  exact ⟨List.replicate m 0xFF, hm⟩

theorem sentExt_wait_token_go (env : Env) (tok f : Nat) (b : Bus) :
    SentExt b (sd_wait_token_go env tok f b).2 := by
  induction f generalizing b with
  | zero => exact sentExt_write env b SPI_FILL_CHAR
  | succ f ih =>
    simp only [sd_wait_token_go]
    split
    · exact sentExt_write env b SPI_FILL_CHAR
    · exact sentExt_trans (sentExt_write env b SPI_FILL_CHAR) (ih _)

theorem sentExt_wait_token (env : Env) (tok : Nat) (b : Bus) :
    SentExt b (sd_wait_token env tok b).2 := by
  unfold sd_wait_token
  exact sentExt_wait_token_go env tok _ _

theorem sendPacket_sent (env : Env) (pkt : List Nat) (b : Bus) :
    (sendPacket env pkt b).sent = b.sent ++ pkt.map (· % 256) := by
  induction pkt generalizing b with
  | nil => simp [sendPacket]
  | cons t ts ih => simp [sendPacket, ih, sd_spi_write]

theorem sd_cmd_spi_sent (crc_on : Bool) (env : Env) (cmd : cmdSupported)
    (arg : Nat) (b : Bus) :
    ∃ rest, (sd_cmd_spi crc_on env cmd arg b).2.sent =
      b.sent ++ (cmdPacket crc_on cmd arg).map (· % 256) ++ rest := by
  unfold sd_cmd_spi
  have hsp := sendPacket_sent env (cmdPacket crc_on cmd arg) b
  split
  · obtain ⟨t, ht⟩ :=
      sentExt_poll env 15 (sd_spi_write env (sendPacket env (cmdPacket crc_on cmd arg) b) SPI_FILL_CHAR).2
    refine ⟨[SPI_FILL_CHAR % 256] ++ t, ?_⟩
    rw [ht]
    simp [sd_spi_write, hsp, List.append_assoc]
  · obtain ⟨t, ht⟩ := sentExt_poll env 15 (sendPacket env (cmdPacket crc_on cmd arg) b)
    refine ⟨t, ?_⟩
    rw [ht, hsp, List.append_assoc]

theorem sentExt_cmd_spi (crc_on : Bool) (env : Env) (cmd : cmdSupported)
    (arg : Nat) (b : Bus) : SentExt b (sd_cmd_spi crc_on env cmd arg b).2 := by
  obtain ⟨rest, h⟩ := sd_cmd_spi_sent crc_on env cmd arg b
  exact ⟨(cmdPacket crc_on cmd arg).map (· % 256) ++ rest, by rw [h, List.append_assoc]⟩

theorem sentExt_attempts (crc_on : Bool) (env : Env) (cmd : cmdSupported)
    (arg : Nat) (isAcmd : Bool) (n : Nat) (b : Bus) :
    SentExt b (sd_cmd_attempts crc_on env cmd arg isAcmd n b).2 := by
  induction n generalizing b with
  | zero => exact sentExt_refl b
  | succ n ih =>
    have hb1 : SentExt b (if isAcmd then
        ((sd_wait_ready env SD_COMMAND_TIMEOUT (sd_cmd_spi crc_on env .CMD55_APP_CMD 0 b).2).2)
        else b) := by
      split
      · exact sentExt_trans (sentExt_cmd_spi crc_on env .CMD55_APP_CMD 0 b)
          (sentExt_wait_ready' env SD_COMMAND_TIMEOUT _)
      · exact sentExt_refl b
    simp only [sd_cmd_attempts]
    generalize hB : (if isAcmd then
        ((sd_wait_ready env SD_COMMAND_TIMEOUT (sd_cmd_spi crc_on env .CMD55_APP_CMD 0 b).2).2)
        else b) = b1 at hb1 ⊢
    refine sentExt_trans hb1 ?_
    split
    · exact sentExt_trans (sentExt_cmd_spi crc_on env cmd arg b1) (ih _)
    · exact sentExt_cmd_spi crc_on env cmd arg b1

theorem sentExt_cmd_tail (env : Env) (cmd : cmdSupported) (resp : Nat)
    (st : Err) (c : Card) (b : Bus) :
    SentExt b (sd_cmd_tail env cmd resp st c b).2.2.2 := by
  cases cmd <;>
    simp only [sd_cmd_tail] <;>
    first
      | exact sentExt_refl b
      | exact sentExt_trans (sentExt_write env b SPI_FILL_CHAR)
          (sentExt_trans (sentExt_write env _ SPI_FILL_CHAR)
            (sentExt_trans (sentExt_write env _ SPI_FILL_CHAR)
              (sentExt_write env _ SPI_FILL_CHAR)))
      | exact sentExt_wait_ready' env SD_COMMAND_TIMEOUT b
      | exact sentExt_write env b SPI_FILL_CHAR

theorem sentExt_cmd (crc_on : Bool) (env : Env) (cmd : cmdSupported) (arg : Nat)
    (isAcmd : Bool) (resp0 : Nat) (c : Card) (b : Bus) :
    SentExt b (sd_cmd crc_on env cmd arg isAcmd resp0 c b).2.2.2 := by
  have hw : SentExt b (if cmd = .CMD12_STOP_TRANSMISSION ∨ cmd = .CMD0_GO_IDLE_STATE
      then (true, b) else sd_wait_ready env SD_COMMAND_TIMEOUT b).2 := by
    split
    · exact sentExt_refl b
    · exact sentExt_wait_ready' env SD_COMMAND_TIMEOUT b
  simp only [sd_cmd]
  generalize hW : (if cmd = cmdSupported.CMD12_STOP_TRANSMISSION ∨ cmd = cmdSupported.CMD0_GO_IDLE_STATE
      then (true, b) else sd_wait_ready env SD_COMMAND_TIMEOUT b) = w at hw ⊢
  split
  · exact hw
  · have hba := sentExt_trans hw (sentExt_attempts crc_on env cmd arg isAcmd SD_COMMAND_RETRIES w.2)
    split
    · exact hba
    · split
      · exact hba
      · split
        · exact hba
        · exact sentExt_trans hba (sentExt_cmd_tail env cmd _ _ c _)

theorem sentExt_read_loop (crc_on : Bool) (env : Env) (n : Nat) (st : Err)
    (blocks : List (List Nat)) (pc : Nat) (b : Bus) :
    SentExt b (in_sd_read_blocks_loop crc_on env n st blocks pc b).2.2.2 := by
  induction n generalizing st blocks pc b with
  | zero => exact sentExt_refl b
  | succ n ih =>
    simp only [in_sd_read_blocks_loop]
    split
    · exact sentExt_refl b
    · have ht := sentExt_wait_token env SPI_START_BLOCK b
      split
      · exact ht
      · have hd := sentExt_trans ht (sentExt_readN env _block_size (sd_wait_token env SPI_START_BLOCK b).2)
        have hw := sentExt_trans hd (sentExt_dma env _)
        split
        · exact hw
        · refine sentExt_trans hw ?_
          refine sentExt_trans (sentExt_write env _ SPI_FILL_CHAR) ?_
          exact sentExt_trans (sentExt_write env _ SPI_FILL_CHAR) (ih _ _ _ _)

theorem sentExt_write_block (crc_on : Bool) (env : Env) (b : Bus)
    (buf : List Nat) (token length : Nat) :
    SentExt b (sd_write_block crc_on env b buf token length).2 := by
  simp only [sd_write_block]
  generalize (if crc_on = true then crc16 ((List.range length).map fun i => buf.getD i 0 % 256)
      else 0xFFFF) = cv
  have h1 : SentExt b (sd_spi_write env b token).2 := sentExt_write env b token
  generalize hb1 : (sd_spi_write env b token).2 = b1 at h1 ⊢
  have h2 : SentExt b (sendN env buf length b1) :=
    sentExt_trans h1 (sentExt_sendN env buf length b1)
  generalize hb2 : sendN env buf length b1 = b2 at h2 ⊢
  have h3 : SentExt b (sd_spi_transfer_wait_complete env b2).2 :=
    sentExt_trans h2 (sentExt_dma env b2)
  generalize hb3 : sd_spi_transfer_wait_complete env b2 = w3 at h3 ⊢
  split
  · exact h3
  · have h4 : SentExt b (sd_spi_write env w3.2 (cv >>> 8 % 256)).2 :=
      sentExt_trans h3 (sentExt_write env w3.2 _)
    generalize hb4 : (sd_spi_write env w3.2 (cv >>> 8 % 256)).2 = b4 at h4 ⊢
    have h5 : SentExt b (sd_spi_write env b4 (cv % 256)).2 :=
      sentExt_trans h4 (sentExt_write env b4 _)
    generalize hb5 : (sd_spi_write env b4 (cv % 256)).2 = b5 at h5 ⊢
    have h6 : SentExt b (sd_spi_write env b5 SPI_FILL_CHAR).2 :=
      sentExt_trans h5 (sentExt_write env b5 _)
    generalize hb6 : sd_spi_write env b5 SPI_FILL_CHAR = r6 at h6 ⊢
    split
    · exact h6
    · have h7 : SentExt b (sd_wait_ready env SD_COMMAND_TIMEOUT r6.2).2 :=
        sentExt_trans h6 (sentExt_wait_ready' env SD_COMMAND_TIMEOUT r6.2)
      split
      · exact h7
      · exact h7

theorem sentExt_write_loop (crc_on : Bool) (env : Env) (data : Nat → List Nat)
    (i n : Nat) (b : Bus) :
    SentExt b (in_sd_write_blocks_loop crc_on env data i n b).2 := by
  induction n generalizing i b with
  | zero => exact sentExt_refl b
  | succ n ih =>
    simp only [in_sd_write_blocks_loop]
    have h1 := sentExt_write_block crc_on env b (data i) SPI_START_BLK_MUL_WRITE _block_size
    split
    · exact h1
    · split
      · exact sentExt_trans h1 (ih _ _)
      · exact h1

theorem sentExt_write_finish (crc_on : Bool) (env : Env) (c : Card) (b : Bus) :
    SentExt b (in_sd_write_finish crc_on env c b).2.2 := by
  simp only [in_sd_write_finish]
  exact sentExt_cmd crc_on env .CMD13_SEND_STATUS 0 false 0 c b

/-! Helper lemmas about the card-session frame of sd_cmd. -/

theorem sd_cmd_tail_card (env : Env) (cmd : cmdSupported) (resp : Nat)
    (st : Err) (c : Card) (b : Bus) (h : cmd ≠ .CMD8_SEND_IF_COND) :
    (sd_cmd_tail env cmd resp st c b).2.2.1 = c := by
  cases cmd <;> simp_all [sd_cmd_tail]

/-- sd_cmd leaves the whole card session untouched unless the command is the
interface-condition command CMD8 (the only writer of the capacity-class tag
inside the command layer). -/
theorem sd_cmd_card (crc_on : Bool) (env : Env) (cmd : cmdSupported) (arg : Nat)
    (isAcmd : Bool) (resp0 : Nat) (c : Card) (b : Bus)
    (h : cmd ≠ .CMD8_SEND_IF_COND) :
    (sd_cmd crc_on env cmd arg isAcmd resp0 c b).2.2.1 = c := by
  simp only [sd_cmd]
  generalize (if cmd = cmdSupported.CMD12_STOP_TRANSMISSION ∨ cmd = cmdSupported.CMD0_GO_IDLE_STATE
      then (true, b) else sd_wait_ready env SD_COMMAND_TIMEOUT b) = w
  split
  · rfl
  · split
    · rfl
    · split
      · rfl
      · split
        · simp [h]
        · exact sd_cmd_tail_card env cmd _ _ c _ h

/-! General facts about the geometry decode. -/

theorem csdBit_le_one (data : List Nat) (p : Nat) : csdBit data p ≤ 1 :=
  Nat.and_le_right

theorem ext_bits_go_lt (data : List Nat) (lsb : Nat) (n : Nat) :
    ext_bits_go data lsb n < 2 ^ n := by
  induction n with
  | zero => simp [ext_bits_go]
  | succ n ih =>
    have hb : csdBit data (lsb + n) * 2 ^ n ≤ 1 * 2 ^ n :=
      Nat.mul_le_mul_right (2 ^ n) (csdBit_le_one data (lsb + n))
    calc ext_bits_go data lsb (n + 1)
        = ext_bits_go data lsb n + csdBit data (lsb + n) * 2 ^ n := rfl
      _ < 2 ^ n + csdBit data (lsb + n) * 2 ^ n := Nat.add_lt_add_right ih _
      _ ≤ 2 ^ n + 1 * 2 ^ n := Nat.add_le_add_left hb _
      _ = 2 ^ (n + 1) := by ring

theorem ext_bits_lt (data : List Nat) (msb lsb : Nat) :
    ext_bits data msb lsb < 2 ^ (msb + 1 - lsb) :=
  ext_bits_go_lt data lsb (msb + 1 - lsb)

/-- For a structure-version-0 register, the decode equals the closed-form
BLOCKNR * BLOCK_LEN / 512 with no 32-bit overflow: the field widths bound the
intermediates below 2^32 and the capacity below 2^64. -/
theorem csd_sectors_v0_formula (csd : List Nat) (h : ext_bits csd 127 126 = 0) :
    csd_sectors csd =
      (ext_bits csd 73 62 + 1) * 2 ^ (ext_bits csd 49 47 + 2) * 2 ^ ext_bits csd 83 80 / 512 := by
  have hcs : ext_bits csd 73 62 < 2 ^ 12 := ext_bits_lt csd 73 62
  have hcm : ext_bits csd 49 47 < 2 ^ 3 := ext_bits_lt csd 49 47
  have hbl : ext_bits csd 83 80 < 2 ^ 4 := ext_bits_lt csd 83 80
  have h1 : (2 : Nat) ^ ext_bits csd 83 80 < 2 ^ 32 := by
    calc (2 : Nat) ^ ext_bits csd 83 80 ≤ 2 ^ 15 := Nat.pow_le_pow_right (by norm_num) (by omega)
      _ < 2 ^ 32 := by norm_num
  have h2 : (2 : Nat) ^ (ext_bits csd 49 47 + 2) < 2 ^ 32 := by
    calc (2 : Nat) ^ (ext_bits csd 49 47 + 2) ≤ 2 ^ 9 := Nat.pow_le_pow_right (by norm_num) (by omega)
      _ < 2 ^ 32 := by norm_num
  have h2' : (2 : Nat) ^ (ext_bits csd 49 47 + 2) ≤ 2 ^ 9 :=
    Nat.pow_le_pow_right (by norm_num) (by omega)
  have h3 : (ext_bits csd 73 62 + 1) * 2 ^ (ext_bits csd 49 47 + 2) < 2 ^ 32 := by
    calc (ext_bits csd 73 62 + 1) * 2 ^ (ext_bits csd 49 47 + 2)
        ≤ 2 ^ 12 * 2 ^ 9 := Nat.mul_le_mul (by omega) h2'
      _ < 2 ^ 32 := by norm_num
  have h4 : (ext_bits csd 73 62 + 1) * 2 ^ (ext_bits csd 49 47 + 2) * 2 ^ ext_bits csd 83 80
      < 2 ^ 64 := by
    calc (ext_bits csd 73 62 + 1) * 2 ^ (ext_bits csd 49 47 + 2) * 2 ^ ext_bits csd 83 80
        ≤ (2 ^ 12 * 2 ^ 9) * 2 ^ 15 := by
          refine Nat.mul_le_mul ?_ ?_
          · exact Nat.mul_le_mul (by omega) h2'
          · exact Nat.pow_le_pow_right (by norm_num) (by omega)
      _ < 2 ^ 64 := by norm_num
  simp only [csd_sectors, h, _block_size]
  rw [Nat.mod_eq_of_lt h1, Nat.mod_eq_of_lt h2, Nat.mod_eq_of_lt h3, Nat.mod_eq_of_lt h4]
  simp

/-- For a structure-version-1 register whose device-size field is below the
maximal value, the decode equals (size + 1) * 1024; the single value 0x3FFFFF
overflows the 32-bit shift. -/
theorem csd_sectors_v1_small (csd : List Nat) (h : ext_bits csd 127 126 = 1)
    (hs : ext_bits csd 69 48 < 0x3FFFFF) :
    csd_sectors csd = (ext_bits csd 69 48 + 1) * 1024 := by
  have hlt : (ext_bits csd 69 48 + 1) <<< 10 < 2 ^ 32 := by
    rw [Nat.shiftLeft_eq]
    calc (ext_bits csd 69 48 + 1) * 2 ^ 10 ≤ 0x3FFFFF * 2 ^ 10 :=
        Nat.mul_le_mul_right _ (by omega)
      _ < 2 ^ 32 := by norm_num
  have h0 : ¬ ext_bits csd 127 126 = 0 := by rw [h]; norm_num
  simp only [csd_sectors]
  rw [if_neg h0, if_pos h, Nat.mod_eq_of_lt hlt, Nat.shiftLeft_eq]

/-! The claims. -/

/-- C1 (code bug): when the 2000 ms ACMD41 operating-condition poll elapses
with the idle bit still set, sd_init_medium tags the capacity class Unknown
but returns the status of the last ACMD41 command, which is ERROR_NONE when
the command itself succeeded; sd_init therefore continues, and in this run it
reads the geometry and clears NotInitialized — initialization reports success
(status bits 0) with capacity class still Unknown, contradicting the claim
(and the spec) that the poll timeout is fatal and leaves NotInitialized set. -/
theorem C1_acmd41_timeout_not_fatal :
    (sd_init_medium false envC1 cardFresh Bus.init).1 = Err.none ∧
    (sd_init_medium false envC1 cardFresh Bus.init).2.1.card_type = CardType.CARD_UNKNOWN ∧
    (sd_init false envC1 cardFresh Bus.init).1 = 0 ∧
    (sd_init false envC1 cardFresh Bus.init).2.1.m_Status &&& STA_NOINIT = 0 ∧
    (sd_init false envC1 cardFresh Bus.init).2.1.card_type = CardType.CARD_UNKNOWN := by
  refine ⟨by decide, by decide, by decide, by decide, by decide⟩

/-- C4 (code bug): the geometry decode matches the documented closed forms on
the spec's structure-version-0 worked example (size 0xFFF, multiplier 7,
block-length exponent 9), but for structure version 1 with the maximal 22-bit
device-size field 0x3FFFFF the 32-bit computation (hc_c_size + 1) << 10
overflows and yields 0 sectors instead of (0x3FFFFF + 1) * 1024 = 2^32. -/
theorem C4_csd_decode_overflow :
    ext_bits csdV0ex 127 126 = 0 ∧ ext_bits csdV0ex 73 62 = 0xFFF ∧
    ext_bits csdV0ex 49 47 = 7 ∧ ext_bits csdV0ex 83 80 = 9 ∧
    csd_sectors csdV0ex = (0xFFF + 1) * 2 ^ (7 + 2) * 2 ^ 9 / 512 ∧
    ext_bits csdV1max 127 126 = 1 ∧ ext_bits csdV1max 69 48 = 0x3FFFFF ∧
    (0x3FFFFF + 1) * 1024 = 2 ^ 32 ∧ csd_sectors csdV1max = 0 ∧
    csd_sectors csdV1max ≠ (0x3FFFFF + 1) * 1024 := by
  refine ⟨by decide, by decide, by decide, by decide, by decide, by decide, by decide,
    by norm_num, by decide, by decide⟩

/-- C7 (amended): with the administrative CRC toggle off, the command packet
carries the hard-coded correct CRC bytes 0x95 for the reset command and 0x87
for the interface-condition command; every other command's CRC byte is 0xFF —
a byte with all bits set (the stop bit among them), not a byte with only the
stop bit set — and sd_cmd_spi transmits exactly this packet on the wire. -/
theorem C7_crc_byte (cmd : cmdSupported) (arg : Nat) (env : Env) (b : Bus)
    (h0 : cmd ≠ .CMD0_GO_IDLE_STATE) (h8 : cmd ≠ .CMD8_SEND_IF_COND) :
    (cmdPacket false cmd arg).getD 5 0 = 0xFF ∧
    (cmdPacket false .CMD0_GO_IDLE_STATE arg).getD 5 0 = 0x95 ∧
    (cmdPacket false .CMD8_SEND_IF_COND arg).getD 5 0 = 0x87 ∧
    ∃ rest, (sd_cmd_spi false env cmd arg b).2.sent =
      b.sent ++ (cmdPacket false cmd arg).map (· % 256) ++ rest := by
  refine ⟨?_, by simp [cmdPacket], by simp [cmdPacket], sd_cmd_spi_sent false env cmd arg b⟩
  cases cmd <;> simp_all [cmdPacket]

/-- C7 witness: the CRC byte of a CMD17 packet with CRC off is 0xFF. -/
theorem C7_crc_byte_witness :
    (cmdPacket false .CMD17_READ_SINGLE_BLOCK 0).getD 5 0 = 0xFF :=
  (C7_crc_byte .CMD17_READ_SINGLE_BLOCK 0 envSilent Bus.init (by decide) (by decide)).1

/-- C7 counterexample: the sixth wire byte of a CRC-off CMD17 packet is 0xFF,
not the byte 0x01 that has only the stop bit set. -/
theorem C7_stop_bit_counterexample :
    ((sd_cmd_spi false envReady .CMD17_READ_SINGLE_BLOCK 0 Bus.init).2.sent).getD 5 0 = 0xFF ∧
    (0xFF : Nat) ≠ 0x01 := by
  refine ⟨by decide, by decide⟩

/-- C2 (amended): whenever the session's NotInitialized or NoMedium bit is
set, or the 64-bit (wrapping) sum sector + count exceeds the known sector
count, both public transfer operations return the Parameter error and perform
zero byte exchanges: their full event trace is just the lock/bus acquire and
release brackets. -/
theorem C2_reject_before_bus (crc_on : Bool) (env : Env) (c : Card) (b : Bus)
    (data : Nat → List Nat) (sector count : Nat)
    (h : c.m_Status &&& (STA_NOINIT ||| STA_NODISK) ≠ 0 ∨
         (sector + count) % 2 ^ 64 > c.sectors) :
    (sd_read_blocks crc_on env c b sector count).1 = Err.parameter ∧
    (sd_read_blocks crc_on env c b sector count).2.2.2.2 =
      [Ev.lockAcq, Ev.busAcq, Ev.lockRel, Ev.busRel] ∧
    (sd_write_blocks crc_on env c b data sector count).1 = Err.parameter ∧
    (sd_write_blocks crc_on env c b data sector count).2.2.2 =
      [Ev.lockAcq, Ev.busAcq, Ev.lockRel, Ev.busRel] := by
  have hr : in_sd_read_blocks crc_on env c b sector count = (Err.parameter, [], c, b) := by
    rcases h with h | h
    · simp only [in_sd_read_blocks]
      rw [if_pos h]
    · by_cases hs : c.m_Status &&& (STA_NOINIT ||| STA_NODISK) ≠ 0
      · simp only [in_sd_read_blocks]
        rw [if_pos hs]
      · simp only [in_sd_read_blocks]
        rw [if_neg hs, if_pos h]
  have hw : in_sd_write_blocks crc_on env c b data sector count = (Err.parameter, c, b) := by
    rcases h with h | h
    · by_cases hb2 : (sector + count) % 2 ^ 64 > c.sectors
      · simp only [in_sd_write_blocks]
        rw [if_pos hb2]
      · simp only [in_sd_write_blocks]
        rw [if_neg hb2, if_pos h]
    · simp only [in_sd_write_blocks]
      rw [if_pos h]
  refine ⟨?_, ?_, ?_, ?_⟩ <;>
    simp [sd_read_blocks, sd_write_blocks, hr, hw, opTrace, sd_acquire_trace,
      sd_release_trace, List.drop_length]

/-- C2 witness: an uninitialized session is rejected with Parameter and an
exchange-free trace. -/
theorem C2_reject_witness :
    (sd_read_blocks true envSilent cardFresh Bus.init 0 1).1 = Err.parameter ∧
    (sd_read_blocks true envSilent cardFresh Bus.init 0 1).2.2.2.2 =
      [Ev.lockAcq, Ev.busAcq, Ev.lockRel, Ev.busRel] ∧
    (sd_write_blocks true envSilent cardFresh Bus.init zdata 0 1).1 = Err.parameter ∧
    (sd_write_blocks true envSilent cardFresh Bus.init zdata 0 1).2.2.2 =
      [Ev.lockAcq, Ev.busAcq, Ev.lockRel, Ev.busRel] :=
  C2_reject_before_bus true envSilent cardFresh Bus.init zdata 0 1 (Or.inl (by decide))

/-- C2 counterexample: a request whose mathematical sum sector + count
exceeds the sector count but whose 64-bit sum wraps around (sector
2^64 - 1, count 2, sector count 1) passes the bounds check: both operations
reach the bus (the read exchanges a byte) and neither returns Parameter. -/
theorem C2_wrap_counterexample :
    cardSmall.sectors < 2 ^ 64 - 1 + 2 ∧
    cardSmall.m_Status &&& (STA_NOINIT ||| STA_NODISK) = 0 ∧
    (sd_read_blocks true envSilent cardSmall Bus.init (2 ^ 64 - 1) 2).1 = Err.noResponse ∧
    Ev.xchg 255 ∈ (sd_read_blocks true envSilent cardSmall Bus.init (2 ^ 64 - 1) 2).2.2.2.2 ∧
    (sd_write_blocks true envSilent cardSmall Bus.init zdata (2 ^ 64 - 1) 2).1 =
      Err.noResponse := by
  refine ⟨by decide, by decide, by decide, by decide, by decide⟩

/-- C8 (amended): every public operation's event trace acquires the card lock
and then the bus before any byte exchange, and on every exit path releases
both — the card lock first and then the bus, the same order as acquisition,
not the reverse; sd_init's two pre-bus exits release only the lock they
took. -/
theorem C8_lock_bus_discipline (crc_on : Bool) (env : Env) (c : Card) (b : Bus)
    (data : Nat → List Nat) (sector count : Nat) :
    (∃ bytes : List Nat, (sd_read_blocks crc_on env c b sector count).2.2.2.2 =
      [Ev.lockAcq, Ev.busAcq] ++ bytes.map Ev.xchg ++ [Ev.lockRel, Ev.busRel]) ∧
    (∃ bytes : List Nat, (sd_write_blocks crc_on env c b data sector count).2.2.2 =
      [Ev.lockAcq, Ev.busAcq] ++ bytes.map Ev.xchg ++ [Ev.lockRel, Ev.busRel]) ∧
    (∃ bytes : List Nat, (sd_spi_sectors crc_on env c b).2.2.2 =
      [Ev.lockAcq, Ev.busAcq] ++ bytes.map Ev.xchg ++ [Ev.lockRel, Ev.busRel]) ∧
    (∃ bytes : List Nat, (sd_spi_test_com crc_on env c b).2.2.2 =
      [Ev.lockAcq, Ev.busAcq] ++ bytes.map Ev.xchg ++ [Ev.lockRel, Ev.busRel]) ∧
    ((sd_init crc_on env c b).2.2.2 = [Ev.lockAcq, Ev.lockRel] ∨
     ∃ bytes : List Nat, (sd_init crc_on env c b).2.2.2 =
      [Ev.lockAcq, Ev.busAcq] ++ bytes.map Ev.xchg ++ [Ev.lockRel, Ev.busRel]) := by
  refine ⟨⟨_, rfl⟩, ⟨_, rfl⟩, ⟨_, rfl⟩, ?_, ?_⟩
  · simp only [sd_spi_test_com]
    split
    · split
      · exact ⟨_, rfl⟩
      · exact ⟨_, rfl⟩
    · split
      · exact ⟨_, rfl⟩
      · exact ⟨_, rfl⟩
  · simp only [sd_init]
    split
    · exact Or.inl rfl
    · split
      · exact Or.inl rfl
      · split
        · exact Or.inr ⟨_, rfl⟩
        · split
          · exact Or.inr ⟨_, rfl⟩
          · split
            · exact Or.inr ⟨_, rfl⟩
            · split
              · exact Or.inr ⟨_, rfl⟩
              · split
                · exact Or.inr ⟨_, rfl⟩
                · exact Or.inr ⟨_, rfl⟩

/-- C8 counterexample: on a concrete failed read, the trace releases the card
lock before the bus — the same order as acquisition — whereas the claim
demands the reverse order (bus first, then the lock). -/
theorem C8_release_order_counterexample :
    (sd_read_blocks true envSilent cardSmall Bus.init 0 1).2.2.2.2 =
      [Ev.lockAcq, Ev.busAcq, Ev.xchg 255, Ev.lockRel, Ev.busRel] ∧
    [Ev.lockAcq, Ev.busAcq, Ev.xchg 255, Ev.lockRel, Ev.busRel] ≠
      [Ev.lockAcq, Ev.busAcq, Ev.xchg 255, Ev.busRel, Ev.lockRel] := by
  refine ⟨by decide, by decide⟩

/-- C6 (amended): sd_write_block returns the Write error for every block
whose 1-byte data-response token has low 5 bits different from the accepted
pattern 0b00101 (the DMA wait having completed); the enclosing write
operation however discards this status — the single-block path ignores
sd_write_block's result outright and both paths return the final CMD13
status-query result instead — so write_blocks itself can return success
despite a rejected token. -/
theorem C6_write_token_rejected (crc_on : Bool) (env : Env) (b : Bus)
    (buffer : List Nat) (token length : Nat)
    (hdma : env.dmaOk b.dmas = true)
    (hresp : env.bus (b.cursor + length + 3) % 256 &&& SPI_DATA_RESPONSE_MASK ≠
      SPI_DATA_ACCEPTED) :
    (sd_write_block crc_on env b buffer token length).1 = Err.write := by
  have e : b.cursor + 1 + length + 1 + 1 = b.cursor + length + 3 := by omega
  simp only [sd_write_block, sd_spi_write, sendN, sd_spi_transfer_wait_complete, hdma]
  rw [if_neg (by simp)]
  rw [← e] at hresp
  rw [if_pos hresp]

/-- C6 witness: in the C6 run the data-response token 0x1F is rejected and
sd_write_block reports the Write error. -/
theorem C6_write_token_witness :
    (sd_write_block true envC6 { cursor := 8, sent := [], waits := 1, dmas := 0 }
      zeroBlock SPI_START_BLOCK 512).1 = Err.write :=
  C6_write_token_rejected true envC6 _ zeroBlock SPI_START_BLOCK 512 (by decide) (by decide)

/-- C6 counterexample: in a single-block write whose data-response token is
rejected (low 5 bits 0x1F), the write operation returns None — the Write
error sd_write_block produced was discarded (station2.c line 982) and the
clean CMD13 status is returned instead. -/
theorem C6_discard_counterexample :
    busC6 523 % 256 &&& SPI_DATA_RESPONSE_MASK ≠ SPI_DATA_ACCEPTED ∧
    (in_sd_write_blocks true envC6 cardSmall Bus.init zdata 0 1).1 = Err.none ∧
    Err.none ≠ Err.write := by
  refine ⟨by decide, by decide, by decide⟩

set_option maxRecDepth 2000 in
/-- C9: a response with the command-CRC-error bit set makes sd_cmd return
the Crc error for every command except ACMD23, for which the bit is exempted
and processing continues — sd_cmd never returns Crc for ACMD23 and leaves the
session untouched; moreover, in the multi-block write the ACMD23 hint's
result is discarded: two identical runs in which the card answers ACMD23 with
a clean R1 and with an R1 carrying the CRC-error and illegal-command bits
both proceed to CMD25 and finish with the same result. -/
theorem C9_crc_bit_acmd23_exempt :
    (∀ (crc_on : Bool) (env : Env) (cmd : cmdSupported) (arg : Nat) (isAcmd : Bool)
        (resp0 : Nat) (c : Card) (b : Bus),
      cmd ≠ .ACMD23_SET_WR_BLK_ERASE_COUNT →
      ∀ w : Bool × Bus,
        w = (if cmd = .CMD12_STOP_TRANSMISSION ∨ cmd = .CMD0_GO_IDLE_STATE then (true, b)
             else sd_wait_ready env SD_COMMAND_TIMEOUT b) →
        w.1 = true →
        (sd_cmd_attempts crc_on env cmd arg isAcmd SD_COMMAND_RETRIES w.2).1 ≠ R1_NO_RESPONSE →
        (sd_cmd_attempts crc_on env cmd arg isAcmd SD_COMMAND_RETRIES w.2).1 &&& R1_COM_CRC_ERROR ≠ 0 →
        (sd_cmd crc_on env cmd arg isAcmd resp0 c b).1 = Err.crc) ∧
    (∀ (crc_on : Bool) (env : Env) (arg : Nat) (isAcmd : Bool) (resp0 : Nat) (c : Card) (b : Bus),
      (sd_cmd crc_on env .ACMD23_SET_WR_BLK_ERASE_COUNT arg isAcmd resp0 c b).1 ≠ Err.crc) ∧
    (∀ (crc_on : Bool) (env : Env) (arg : Nat) (isAcmd : Bool) (resp0 : Nat) (c : Card) (b : Bus),
      (sd_cmd crc_on env .ACMD23_SET_WR_BLK_ERASE_COUNT arg isAcmd resp0 c b).2.2.1 = c) ∧
    ((in_sd_write_blocks true (envC9 0x00) cardTwo Bus.init zdata 0 2).1 = Err.none ∧
     (in_sd_write_blocks true (envC9 0x0C) cardTwo Bus.init zdata 0 2).1 = Err.none ∧
     (0x0C : Nat) &&& R1_COM_CRC_ERROR ≠ 0 ∧
     (in_sd_write_blocks true (envC9 0x0C) cardTwo Bus.init zdata 0 2).2.2.sent.getD 17 0 =
       0x40 ||| 25) := by
  refine ⟨?_, ?_, ?_, by decide, by decide, by decide, by decide⟩
  · intro crc_on env cmd arg isAcmd resp0 c b hcmd w hw hw1 hnr hcrc
    simp only [sd_cmd]
    rw [← hw]
    rw [if_neg (by simp [hw1])]
    rw [if_neg hnr, if_pos ⟨hcrc, hcmd⟩]
  · intro crc_on env arg isAcmd resp0 c b
    simp only [sd_cmd]
    generalize (if cmdSupported.ACMD23_SET_WR_BLK_ERASE_COUNT = cmdSupported.CMD12_STOP_TRANSMISSION ∨
        cmdSupported.ACMD23_SET_WR_BLK_ERASE_COUNT = cmdSupported.CMD0_GO_IDLE_STATE then (true, b)
        else sd_wait_ready env SD_COMMAND_TIMEOUT b) = w
    split
    · simp
    · split
      · simp
      · split
        · rename_i hcond
          exact absurd rfl hcond.2
        · split
          · simp
          · simp only [sd_cmd_tail]
            split
            · simp
            · split <;> simp
  · intro crc_on env arg isAcmd resp0 c b
    exact sd_cmd_card crc_on env _ arg isAcmd resp0 c b (by decide)

/-- C9 witness: with a CRC-error R1 to CMD17, sd_cmd returns the Crc error. -/
theorem C9_crc_bit_witness :
    (sd_cmd true envCrcResp .CMD17_READ_SINGLE_BLOCK 0 false 0 cardSmall Bus.init).1 =
      Err.crc :=
  C9_crc_bit_acmd23_exempt.1 true envCrcResp .CMD17_READ_SINGLE_BLOCK 0 false 0 cardSmall
    Bus.init (by decide) _ rfl (by decide) (by decide) (by decide)

/-- C10: read_blocks and write_blocks leave the whole card session (status
bits, capacity-class tag, sector count and both registers) unchanged on every
path, and within sd_cmd the capacity-class tag is written only by the
interface-condition command CMD8, which neither transfer path issues. -/
theorem C10_frame (crc_on : Bool) (env : Env) (c : Card) (b : Bus)
    (data : Nat → List Nat) (sector count : Nat) :
    (sd_read_blocks crc_on env c b sector count).2.2.1 = c ∧
    (sd_write_blocks crc_on env c b data sector count).2.1 = c ∧
    (∀ (cmd : cmdSupported) (arg : Nat) (isAcmd : Bool) (resp0 : Nat),
      cmd ≠ .CMD8_SEND_IF_COND →
      (sd_cmd crc_on env cmd arg isAcmd resp0 c b).2.2.1 = c) := by
  have A17 := fun (arg : Nat) (c' : Card) (b' : Bus) =>
    sd_cmd_card crc_on env .CMD17_READ_SINGLE_BLOCK arg false 0 c' b' (by decide)
  have A18 := fun (arg : Nat) (c' : Card) (b' : Bus) =>
    sd_cmd_card crc_on env .CMD18_READ_MULTIPLE_BLOCK arg false 0 c' b' (by decide)
  have A12 := fun (arg : Nat) (c' : Card) (b' : Bus) =>
    sd_cmd_card crc_on env .CMD12_STOP_TRANSMISSION arg false 0 c' b' (by decide)
  have A24 := fun (arg : Nat) (c' : Card) (b' : Bus) =>
    sd_cmd_card crc_on env .CMD24_WRITE_BLOCK arg false 0 c' b' (by decide)
  have A25 := fun (arg : Nat) (c' : Card) (b' : Bus) =>
    sd_cmd_card crc_on env .CMD25_WRITE_MULTIPLE_BLOCK arg false 0 c' b' (by decide)
  have A13 := fun (arg : Nat) (c' : Card) (b' : Bus) =>
    sd_cmd_card crc_on env .CMD13_SEND_STATUS arg false 0 c' b' (by decide)
  have A23 := fun (arg : Nat) (c' : Card) (b' : Bus) =>
    sd_cmd_card crc_on env .ACMD23_SET_WR_BLK_ERASE_COUNT arg true 0 c' b' (by decide)
  refine ⟨?_, ?_, fun cmd arg isAcmd resp0 h => sd_cmd_card crc_on env cmd arg isAcmd resp0 c b h⟩
  · simp only [sd_read_blocks, in_sd_read_blocks]
    repeat' split
    all_goals simp [A17, A18, A12]
  · simp only [sd_write_blocks, in_sd_write_blocks, in_sd_write_finish]
    repeat' split
    all_goals simp [A24, A25, A13, A23]

/-- C10 witness: a concrete read and write leave the session unchanged, and
a concrete CMD17 leaves the capacity-class tag unchanged. -/
theorem C10_frame_witness :
    (sd_read_blocks true envSilent cardSmall Bus.init 0 1).2.2.1 = cardSmall ∧
    (sd_write_blocks true envSilent cardSmall Bus.init zdata 0 1).2.1 = cardSmall ∧
    (sd_cmd true envSilent .CMD17_READ_SINGLE_BLOCK 0 false 0 cardSmall Bus.init).2.2.1 =
      cardSmall := by
  obtain ⟨h1, h2, h3⟩ := C10_frame true envSilent cardSmall Bus.init zdata 0 1
  exact ⟨h1, h2, h3 .CMD17_READ_SINGLE_BLOCK 0 false 0 (by decide)⟩

/-! The wire form of the first command packet a (non-application) sd_cmd
transmits: ready-wait fill bytes followed by the 6-byte packet. -/

theorem sd_cmd_attempts_first_packet (crc_on : Bool) (env : Env) (cmd : cmdSupported)
    (arg : Nat) (n : Nat) (b : Bus) :
    ∃ rest, (sd_cmd_attempts crc_on env cmd arg false (n + 1) b).2.sent =
      b.sent ++ (cmdPacket crc_on cmd arg).map (· % 256) ++ rest := by
  obtain ⟨r0, hr0⟩ := sd_cmd_spi_sent crc_on env cmd arg b
  simp only [sd_cmd_attempts]
  rw [if_neg (by decide : ¬ (false = true))]
  split
  · obtain ⟨t, ht⟩ := sentExt_attempts crc_on env cmd arg false n (sd_cmd_spi crc_on env cmd arg b).2
    exact ⟨r0 ++ t, by rw [ht, hr0]; simp [List.append_assoc]⟩
  · exact ⟨r0, hr0⟩

theorem sd_cmd_first_packet (crc_on : Bool) (env : Env) (cmd : cmdSupported)
    (arg resp0 : Nat) (c : Card) (b : Bus)
    (h12 : cmd ≠ .CMD12_STOP_TRANSMISSION) (h0 : cmd ≠ .CMD0_GO_IDLE_STATE)
    (hready : (sd_wait_ready env SD_COMMAND_TIMEOUT b).1 = true) :
    ∃ m rest, (sd_cmd crc_on env cmd arg false resp0 c b).2.2.2.sent =
      b.sent ++ List.replicate m 0xFF ++ (cmdPacket crc_on cmd arg).map (· % 256) ++ rest := by
  obtain ⟨m, hm⟩ := sentExt_wait_ready env SD_COMMAND_TIMEOUT b
  simp only [sd_cmd]
  have hcond : ¬ (cmd = cmdSupported.CMD12_STOP_TRANSMISSION ∨ cmd = cmdSupported.CMD0_GO_IDLE_STATE) := by
    rintro (h | h)
    · exact h12 h
    · exact h0 h
  rw [if_neg hcond]
  have hcond2 : ¬ ((sd_wait_ready env SD_COMMAND_TIMEOUT b).1 = false) := by
    rw [hready]
    decide
  rw [if_neg hcond2]
  obtain ⟨rest, hrest⟩ :=
    sd_cmd_attempts_first_packet crc_on env cmd arg 2 (sd_wait_ready env SD_COMMAND_TIMEOUT b).2
  rw [show (2 + 1 : Nat) = SD_COMMAND_RETRIES from rfl] at hrest
  generalize hA : sd_cmd_attempts crc_on env cmd arg false SD_COMMAND_RETRIES
    (sd_wait_ready env SD_COMMAND_TIMEOUT b).2 = a at hrest ⊢
  split
  · exact ⟨m, rest, by rw [hrest, hm]; try simp [List.append_assoc]⟩
  · split
    · exact ⟨m, rest, by rw [hrest, hm]; try simp [List.append_assoc]⟩
    · split
      · exact ⟨m, rest, by rw [hrest, hm]; try simp [List.append_assoc]⟩
      · obtain ⟨q, hq⟩ := sentExt_cmd_tail env cmd a.1
          (if a.1 &&& R1_ERASE_RESET ≠ 0 ∨ a.1 &&& R1_ERASE_SEQUENCE_ERROR ≠ 0 then Err.erase
           else if a.1 &&& R1_ADDRESS_ERROR ≠ 0 ∨ a.1 &&& R1_PARAMETER_ERROR ≠ 0 then Err.parameter
           else Err.none) c a.2
        exact ⟨m, rest ++ q, by rw [hq, hrest, hm]; try simp [List.append_assoc]⟩

/-- C3 (amended): a transfer request that reaches the command stage sends,
after the ready-wait fill bytes, a command packet whose 6-byte layout carries
the big-endian encoding of the wire address reduced modulo 2^32 — the sector
number itself for a V2HighCapacity session and the byte offset
sector * 512 (computed in 64-bit arithmetic) for every other capacity class;
the packet bytes at offsets 1..4 are exactly that encoding.  The opcode is
CMD17/CMD18 for reads and CMD24/CMD25 for writes. -/
theorem C3_wire_address (crc_on : Bool) (env : Env) (c : Card) (b : Bus)
    (data : Nat → List Nat) (sector count : Nat)
    (hs : c.m_Status &&& (STA_NOINIT ||| STA_NODISK) = 0)
    (hb : ¬ (sector + count) % 2 ^ 64 > c.sectors) :
    (∀ (cw : Bool) (cmd : cmdSupported) (a : Nat),
      (cmdPacket cw cmd a).getD 1 0 = ((a % 2 ^ 32) >>> 24) % 256 ∧
      (cmdPacket cw cmd a).getD 2 0 = ((a % 2 ^ 32) >>> 16) % 256 ∧
      (cmdPacket cw cmd a).getD 3 0 = ((a % 2 ^ 32) >>> 8) % 256 ∧
      (cmdPacket cw cmd a).getD 4 0 = (a % 2 ^ 32) % 256) ∧
    ((sd_wait_ready env SD_COMMAND_TIMEOUT b).1 = true →
      ∃ m rest, (in_sd_read_blocks crc_on env c b sector count).2.2.2.sent =
        b.sent ++ List.replicate m 0xFF ++
        (cmdPacket crc_on
          (if count = 1 then cmdSupported.CMD17_READ_SINGLE_BLOCK
           else cmdSupported.CMD18_READ_MULTIPLE_BLOCK)
          (if c.card_type = CardType.SDCARD_V2HC then sector
           else sector * _block_size % 2 ^ 64)).map (· % 256) ++ rest) ∧
    (count = 1 → (sd_wait_ready env SD_COMMAND_TIMEOUT b).1 = true →
      ∃ m rest, (in_sd_write_blocks crc_on env c b data sector count).2.2.sent =
        b.sent ++ List.replicate m 0xFF ++
        (cmdPacket crc_on cmdSupported.CMD24_WRITE_BLOCK
          (if c.card_type = CardType.SDCARD_V2HC then sector
           else sector * _block_size % 2 ^ 64)).map (· % 256) ++ rest) ∧
    (count ≠ 1 →
      ∀ preBus : Bus,
        preBus = (sd_cmd crc_on env cmdSupported.ACMD23_SET_WR_BLK_ERASE_COUNT count true 0 c b).2.2.2 →
        (sd_wait_ready env SD_COMMAND_TIMEOUT preBus).1 = true →
        ∃ m rest, (in_sd_write_blocks crc_on env c b data sector count).2.2.sent =
          preBus.sent ++ List.replicate m 0xFF ++
          (cmdPacket crc_on cmdSupported.CMD25_WRITE_MULTIPLE_BLOCK
            (if c.card_type = CardType.SDCARD_V2HC then sector
             else sector * _block_size % 2 ^ 64)).map (· % 256) ++ rest) := by
  refine ⟨?_, ?_, ?_, ?_⟩
  · intro cw cmd a
    refine ⟨?_, ?_, ?_, ?_⟩ <;>
      simp only [cmdPacket, List.cons_append, List.nil_append, List.getD_cons_succ,
        List.getD_cons_zero]
  · intro hready
    simp only [in_sd_read_blocks]
    rw [if_neg (by simp [hs]), if_neg hb]
    by_cases hc1 : count = 1
    · rw [if_pos hc1, if_pos hc1]
      obtain ⟨m, rest, hp⟩ := sd_cmd_first_packet crc_on env .CMD17_READ_SINGLE_BLOCK
        (if c.card_type = CardType.SDCARD_V2HC then sector else sector * _block_size % 2 ^ 64)
        0 c b (by decide) (by decide) hready
      by_cases hr : (sd_cmd crc_on env .CMD17_READ_SINGLE_BLOCK
          (if c.card_type = CardType.SDCARD_V2HC then sector else sector * _block_size % 2 ^ 64)
          false 0 c b).1 ≠ Err.none
      · rw [if_pos hr]
        exact ⟨m, rest, hp⟩
      · rw [if_neg hr, if_neg (show ¬ count > 1 by omega)]
        try dsimp only
        obtain ⟨q, hq⟩ := sentExt_read_loop crc_on env count Err.none [] 0
          (sd_cmd crc_on env .CMD17_READ_SINGLE_BLOCK
            (if c.card_type = CardType.SDCARD_V2HC then sector else sector * _block_size % 2 ^ 64)
            false 0 c b).2.2.2
        exact ⟨m, rest ++ q, by rw [hq, hp]; try simp [List.append_assoc]⟩
    · rw [if_neg hc1, if_neg hc1]
      obtain ⟨m, rest, hp⟩ := sd_cmd_first_packet crc_on env .CMD18_READ_MULTIPLE_BLOCK
        (if c.card_type = CardType.SDCARD_V2HC then sector else sector * _block_size % 2 ^ 64)
        0 c b (by decide) (by decide) hready
      by_cases hr : (sd_cmd crc_on env .CMD18_READ_MULTIPLE_BLOCK
          (if c.card_type = CardType.SDCARD_V2HC then sector else sector * _block_size % 2 ^ 64)
          false 0 c b).1 ≠ Err.none
      · rw [if_pos hr]
        exact ⟨m, rest, hp⟩
      · rw [if_neg hr]
        obtain ⟨q, hq⟩ := sentExt_read_loop crc_on env count Err.none [] 0
          (sd_cmd crc_on env .CMD18_READ_MULTIPLE_BLOCK
            (if c.card_type = CardType.SDCARD_V2HC then sector else sector * _block_size % 2 ^ 64)
            false 0 c b).2.2.2
        by_cases hg : count > 1
        · rw [if_pos hg]
          try dsimp only
          obtain ⟨q2, hq2⟩ := sentExt_cmd crc_on env .CMD12_STOP_TRANSMISSION 0 false 0
            (sd_cmd crc_on env .CMD18_READ_MULTIPLE_BLOCK
              (if c.card_type = CardType.SDCARD_V2HC then sector else sector * _block_size % 2 ^ 64)
              false 0 c b).2.2.1
            (in_sd_read_blocks_loop crc_on env count Err.none [] 0
              (sd_cmd crc_on env .CMD18_READ_MULTIPLE_BLOCK
                (if c.card_type = CardType.SDCARD_V2HC then sector else sector * _block_size % 2 ^ 64)
                false 0 c b).2.2.2).2.2.2
          exact ⟨m, rest ++ (q ++ q2), by rw [hq2, hq, hp]; try simp [List.append_assoc]⟩
        · rw [if_neg hg]
          try dsimp only
          exact ⟨m, rest ++ q, by rw [hq, hp]; try simp [List.append_assoc]⟩
  · intro hc1 hready
    simp only [in_sd_write_blocks]
    rw [if_neg hb, if_neg (by simp [hs]), if_pos hc1]
    obtain ⟨m, rest, hp⟩ := sd_cmd_first_packet crc_on env .CMD24_WRITE_BLOCK
      (if c.card_type = CardType.SDCARD_V2HC then sector else sector * _block_size % 2 ^ 64)
      0 c b (by decide) (by decide) hready
    by_cases hr : (sd_cmd crc_on env .CMD24_WRITE_BLOCK
        (if c.card_type = CardType.SDCARD_V2HC then sector else sector * _block_size % 2 ^ 64)
        false 0 c b).1 ≠ Err.none
    · rw [if_pos hr]
      exact ⟨m, rest, hp⟩
    · rw [if_neg hr]
      try dsimp only
      obtain ⟨q, hq⟩ := sentExt_write_block crc_on env
        (sd_cmd crc_on env .CMD24_WRITE_BLOCK
          (if c.card_type = CardType.SDCARD_V2HC then sector else sector * _block_size % 2 ^ 64)
          false 0 c b).2.2.2 (data 0) SPI_START_BLOCK _block_size
      obtain ⟨q2, hq2⟩ := sentExt_write_finish crc_on env
        (sd_cmd crc_on env .CMD24_WRITE_BLOCK
          (if c.card_type = CardType.SDCARD_V2HC then sector else sector * _block_size % 2 ^ 64)
          false 0 c b).2.2.1
        (sd_write_block crc_on env
          (sd_cmd crc_on env .CMD24_WRITE_BLOCK
            (if c.card_type = CardType.SDCARD_V2HC then sector else sector * _block_size % 2 ^ 64)
            false 0 c b).2.2.2 (data 0) SPI_START_BLOCK _block_size).2
      exact ⟨m, rest ++ (q ++ q2), by rw [hq2, hq, hp]; try simp [List.append_assoc]⟩
  · intro hcn preBus hpre hready2
    subst hpre
    simp only [in_sd_write_blocks]
    rw [if_neg hb, if_neg (by simp [hs]), if_neg hcn]
    obtain ⟨m, rest, hp⟩ := sd_cmd_first_packet crc_on env .CMD25_WRITE_MULTIPLE_BLOCK
      (if c.card_type = CardType.SDCARD_V2HC then sector else sector * _block_size % 2 ^ 64)
      0 (sd_cmd crc_on env cmdSupported.ACMD23_SET_WR_BLK_ERASE_COUNT count true 0 c b).2.2.1
      (sd_cmd crc_on env cmdSupported.ACMD23_SET_WR_BLK_ERASE_COUNT count true 0 c b).2.2.2
      (by decide) (by decide) hready2
    by_cases hr : (sd_cmd crc_on env .CMD25_WRITE_MULTIPLE_BLOCK
        (if c.card_type = CardType.SDCARD_V2HC then sector else sector * _block_size % 2 ^ 64)
        false 0 (sd_cmd crc_on env cmdSupported.ACMD23_SET_WR_BLK_ERASE_COUNT count true 0 c b).2.2.1
        (sd_cmd crc_on env cmdSupported.ACMD23_SET_WR_BLK_ERASE_COUNT count true 0 c b).2.2.2).1 ≠ Err.none
    · rw [if_pos hr]
      exact ⟨m, rest, hp⟩
    · rw [if_neg hr]
      try dsimp only
      obtain ⟨q, hq⟩ := sentExt_write_loop crc_on env data 0 count
        (sd_cmd crc_on env .CMD25_WRITE_MULTIPLE_BLOCK
          (if c.card_type = CardType.SDCARD_V2HC then sector else sector * _block_size % 2 ^ 64)
          false 0 (sd_cmd crc_on env cmdSupported.ACMD23_SET_WR_BLK_ERASE_COUNT count true 0 c b).2.2.1
          (sd_cmd crc_on env cmdSupported.ACMD23_SET_WR_BLK_ERASE_COUNT count true 0 c b).2.2.2).2.2.2
      obtain ⟨q1, hq1⟩ := sentExt_write env
        (in_sd_write_blocks_loop crc_on env data 0 count
          (sd_cmd crc_on env .CMD25_WRITE_MULTIPLE_BLOCK
            (if c.card_type = CardType.SDCARD_V2HC then sector else sector * _block_size % 2 ^ 64)
            false 0 (sd_cmd crc_on env cmdSupported.ACMD23_SET_WR_BLK_ERASE_COUNT count true 0 c b).2.2.1
            (sd_cmd crc_on env cmdSupported.ACMD23_SET_WR_BLK_ERASE_COUNT count true 0 c b).2.2.2).2.2.2).2
        SPI_STOP_TRAN
      obtain ⟨q2, hq2⟩ := sentExt_write_finish crc_on env
        (sd_cmd crc_on env .CMD25_WRITE_MULTIPLE_BLOCK
          (if c.card_type = CardType.SDCARD_V2HC then sector else sector * _block_size % 2 ^ 64)
          false 0 (sd_cmd crc_on env cmdSupported.ACMD23_SET_WR_BLK_ERASE_COUNT count true 0 c b).2.2.1
          (sd_cmd crc_on env cmdSupported.ACMD23_SET_WR_BLK_ERASE_COUNT count true 0 c b).2.2.2).2.2.1
        ((sd_spi_write env
          (in_sd_write_blocks_loop crc_on env data 0 count
            (sd_cmd crc_on env .CMD25_WRITE_MULTIPLE_BLOCK
              (if c.card_type = CardType.SDCARD_V2HC then sector else sector * _block_size % 2 ^ 64)
              false 0 (sd_cmd crc_on env cmdSupported.ACMD23_SET_WR_BLK_ERASE_COUNT count true 0 c b).2.2.1
              (sd_cmd crc_on env cmdSupported.ACMD23_SET_WR_BLK_ERASE_COUNT count true 0 c b).2.2.2).2.2.2).2
          SPI_STOP_TRAN).2)
      exact ⟨m, rest ++ (q ++ (q1 ++ q2)), by rw [hq2, hq1, hq, hp]; try simp [List.append_assoc]⟩


/-- C3 witness: a concrete single-sector read reaching the command stage
carries the CMD17 packet on the wire. -/
theorem C3_wire_address_witness :
    ∃ m rest, (in_sd_read_blocks true envReady cardBig Bus.init (2 ^ 23) 1).2.2.2.sent =
      Bus.init.sent ++ List.replicate m 0xFF ++
      (cmdPacket true
        (if (1 : Nat) = 1 then cmdSupported.CMD17_READ_SINGLE_BLOCK
         else cmdSupported.CMD18_READ_MULTIPLE_BLOCK)
        (if cardBig.card_type = CardType.SDCARD_V2HC then 2 ^ 23
         else 2 ^ 23 * _block_size % 2 ^ 64)).map (· % 256) ++ rest :=
  (C3_wire_address true envReady cardBig Bus.init zdata (2 ^ 23) 1
    (by decide) (by decide)).2.1 (by decide)

/-- C3 counterexample: on a standard-capacity session with 2^27 known
sectors, reading sector 2^23 puts the byte offset 2^23 * 512 = 2^32 on the
wire; the four transmitted address bytes are 0, 0, 0, 0 — the truncation of
2^32 to 32 bits — and no 4-byte big-endian field can equal 2^32, so the wire
argument is not sector * 512 as the claim states. -/
theorem C3_truncation_counterexample :
    cardBig.card_type ≠ CardType.SDCARD_V2HC ∧
    2 ^ 23 * _block_size = 2 ^ 32 ∧
    (in_sd_read_blocks true envReady cardBig Bus.init (2 ^ 23) 1).2.2.2.sent.take 7 =
      [0xFF, 0x51, 0, 0, 0, 0, 0x55] ∧
    (2 ^ 32 : Nat) ≠ 0 * 2 ^ 24 + 0 * 2 ^ 16 + 0 * 2 ^ 8 + 0 := by
  refine ⟨by decide, by decide, by decide, by decide⟩

theorem loop_stuck (crc_on : Bool) (env : Env) (m : Nat) (s : Err)
    (blocks : List (List Nat)) (pc : Nat) (b : Bus) (h : s ≠ Err.none) :
    in_sd_read_blocks_loop crc_on env m s blocks pc b = (s, blocks, pc, b) := by
  cases m with
  | zero => rfl
  | succ m => simp [in_sd_read_blocks_loop, h]

theorem readEnvBus_token (n k i : Nat) (h : i < min (k + 2) n) :
    readEnvBus n k (8 + 515 * i) = 0xFE := by
  have h' : i < min (k + 2) n := h
  simp only [readEnvBus]
  rw [if_neg (by omega)]
  have hq : 8 + 515 * i - 8 = 515 * i := by omega
  rw [hq]
  rw [if_pos (by omega : 515 * i < 515 * min (k + 2) n)]
  rw [if_pos (by omega : 515 * i % 515 = 0)]

theorem readEnvBus_data (n k i r : Nat) (h : i < min (k + 2) n)
    (h1 : 1 ≤ r) (h2 : r ≤ 513) :
    readEnvBus n k (8 + 515 * i + r) = 0 := by
  simp only [readEnvBus]
  rw [if_neg (by omega)]
  have hq : 8 + 515 * i + r - 8 = 515 * i + r := by omega
  rw [hq]
  rw [if_pos (by omega : 515 * i + r < 515 * min (k + 2) n)]
  rw [if_neg (by omega : ¬ (515 * i + r) % 515 = 0)]
  rw [if_neg (by omega : ¬ ((515 * i + r) % 515 = 514 ∧ (515 * i + r) / 515 = k))]

theorem readEnvBus_crcLo (n k i : Nat) (h : i < min (k + 2) n) :
    readEnvBus n k (8 + 515 * i + 514) = if i = k then 1 else 0 := by
  simp only [readEnvBus]
  rw [if_neg (by omega)]
  have hq : 8 + 515 * i + 514 - 8 = 515 * i + 514 := by omega
  rw [hq]
  rw [if_pos (by omega : 515 * i + 514 < 515 * min (k + 2) n)]
  rw [if_neg (by omega : ¬ (515 * i + 514) % 515 = 0)]
  have hmod : (515 * i + 514) % 515 = 514 := by omega
  have hdiv : (515 * i + 514) / 515 = i := by omega
  by_cases hik : i = k
  · rw [if_pos ⟨hmod, by rw [hdiv]; exact hik⟩, if_pos hik]
  · rw [if_neg (by rw [hdiv]; exact fun hc => hik hc.2), if_neg hik]

theorem readEnvBus_post (n k t : Nat) (ht : t ≤ 8) :
    readEnvBus n k (8 + 515 * min (k + 2) n + t) = if t = 7 then 0 else 0xFF := by
  simp only [readEnvBus]
  rw [if_neg (by omega)]
  have hq : 8 + 515 * min (k + 2) n + t - 8 = 515 * min (k + 2) n + t := by omega
  rw [hq]
  rw [if_neg (by omega : ¬ 515 * min (k + 2) n + t < 515 * min (k + 2) n)]
  have h2 : 515 * min (k + 2) n + t - 515 * min (k + 2) n = t := by omega
  rw [h2]

theorem crc16_replicate_zero (n : Nat) : crc16 (List.replicate n 0) = 0 := by
  induction n with
  | zero => rfl
  | succ n ih =>
    unfold crc16 at ih ⊢
    rw [List.replicate_succ, List.foldl_cons]
    rw [show crc16Step 0 0 = 0 from by decide]
    exact ih

theorem crc16_zeroBlock : crc16 zeroBlock = 0 := crc16_replicate_zero 512

theorem getLastD_replicate (a : List Nat) (d : List Nat) (j : Nat) :
    (List.replicate (j + 1) a).getLastD d = a := by
  induction j generalizing d with
  | zero => rfl
  | succ j ih =>
    rw [List.replicate_succ]
    exact ih a

theorem repFF_absorb (S : List Nat) (a b : Nat) :
    (S ++ List.replicate a (255 : Nat)) ++ List.replicate b 255 =
      S ++ List.replicate (a + b) 255 := by
  rw [List.append_assoc, ← List.replicate_add]

theorem wait_token_hit (env : Env) (tok : Nat) (b : Bus)
    (h : env.bus b.cursor % 256 = tok) :
    sd_wait_token env tok b =
      (true, { b with
        cursor := b.cursor + 1
        sent := b.sent ++ [255]
        waits := b.waits + 1 }) := by
  unfold sd_wait_token
  generalize env.fuel b.waits = f
  cases f with
  | zero => simp [sd_wait_token_go, sd_spi_write, SPI_FILL_CHAR, h]
  | succ f => simp [sd_wait_token_go, sd_spi_write, SPI_FILL_CHAR, h]

theorem wait_ready_hit (env : Env) (t : Nat) (b : Bus)
    (h : env.bus b.cursor % 256 ≠ 0) :
    sd_wait_ready env t b =
      (true, { b with
        cursor := b.cursor + 1
        sent := b.sent ++ [255]
        waits := b.waits + 1 }) := by
  unfold sd_wait_ready
  generalize (if t = 0 then 0 else env.fuel b.waits) = f
  cases f with
  | zero => simp [sd_wait_ready_go, sd_spi_write, SPI_FILL_CHAR, h, bne_iff_ne]
  | succ f => simp [sd_wait_ready_go, sd_spi_write, SPI_FILL_CHAR, h]

theorem resp_poll_hit (env : Env) (f : Nat) (b : Bus)
    (h : env.bus b.cursor % 256 &&& R1_RESPONSE_RECV = 0) :
    sd_cmd_resp_poll env f b =
      (env.bus b.cursor % 256, { b with cursor := b.cursor + 1, sent := b.sent ++ [255] }) := by
  cases f with
  | zero => simp [sd_cmd_resp_poll, sd_spi_write, SPI_FILL_CHAR]
  | succ f => simp [sd_cmd_resp_poll, sd_spi_write, SPI_FILL_CHAR, h]

theorem dma_hit (env : Env) (b : Bus) (h : env.dmaOk b.dmas = true) :
    sd_spi_transfer_wait_complete env b = (true, { b with dmas := b.dmas + 1 }) := by
  simp [sd_spi_transfer_wait_complete, h]

theorem readN_env_zero (n k i : Nat) (b : Bus) (hc : b.cursor = 8 + 515 * i + 1)
    (hi : i < min (k + 2) n) :
    readN (readEnv n k) 512 b =
      (zeroBlock, { b with
        cursor := b.cursor + 512
        sent := b.sent ++ List.replicate 512 255 }) := by
  unfold readN
  have hdat : (List.range 512).map (fun j => (readEnv n k).bus (b.cursor + j) % 256) =
      zeroBlock := by
    refine List.eq_replicate_iff.mpr ⟨by simp, ?_⟩
    intro x hx
    obtain ⟨j, hj, hfx⟩ := List.mem_map.mp hx
    have hj512 : j < 512 := List.mem_range.mp hj
    have : (readEnv n k).bus (b.cursor + j) = 0 := by
      show readEnvBus n k (b.cursor + j) = 0
      have : b.cursor + j = 8 + 515 * i + (1 + j) := by omega
      rw [this]
      exact readEnvBus_data n k i (1 + j) hi (by omega) (by omega)
    rw [this] at hfx
    simpa using hfx.symm
  rw [hdat]
  rfl

theorem C5step (n k : Nat) (S0 : List Nat) (i m : Nat) (hi : i < min (k + 2) n) :
    in_sd_read_blocks_loop true (readEnv n k) (m + 1) Err.none
      (List.replicate i zeroBlock) (C5pc k i) (C5bus S0 i) =
    in_sd_read_blocks_loop true (readEnv n k) m
      (if i = k + 1 then Err.crc else Err.none)
      (List.replicate (i + 1) zeroBlock) (C5pc k (i + 1)) (C5bus S0 (i + 1)) := by
  have htok : sd_wait_token (readEnv n k) SPI_START_BLOCK (C5bus S0 i) =
      (true, { cursor := 8 + 515 * i + 1
               sent := (S0 ++ List.replicate (515 * i) 255) ++ [255]
               waits := 1 + i + 1
               dmas := i }) := by
    have hc : (readEnv n k).bus (C5bus S0 i).cursor % 256 = SPI_START_BLOCK := by
      show readEnvBus n k (8 + 515 * i) % 256 = SPI_START_BLOCK
      rw [readEnvBus_token n k i hi]
      rfl
    rw [wait_token_hit (readEnv n k) SPI_START_BLOCK (C5bus S0 i) hc]
    rfl
  have hread : readN (readEnv n k) 512
      ({ cursor := 8 + 515 * i + 1
         sent := (S0 ++ List.replicate (515 * i) 255) ++ [255]
         waits := 1 + i + 1
         dmas := i } : Bus) =
      (zeroBlock, { cursor := 8 + 515 * i + 513
                    sent := ((S0 ++ List.replicate (515 * i) 255) ++ [255]) ++
                            List.replicate 512 255
                    waits := 1 + i + 1
                    dmas := i }) := by
    rw [readN_env_zero n k i _ rfl hi]
  have hhi : readEnvBus n k (8 + 515 * i + 513) = 0 :=
    readEnvBus_data n k i 513 hi (by omega) (by omega)
  have hlo : readEnvBus n k (8 + 515 * i + 514) =
      (if i = k then 1 else 0) := readEnvBus_crcLo n k i hi
  simp only [in_sd_read_blocks_loop, _block_size]
  rw [if_neg (fun hh => hh rfl), htok]
  rw [if_neg (by simp)]
  rw [hread]
  simp only [sd_spi_transfer_wait_complete, sd_spi_write, readEnv]
  rw [if_neg (by simp)]
  rw [hhi, hlo]
  have hst : (if (List.replicate i zeroBlock).length ≠ 0 ∧
        chk_crc16 true ((List.replicate i zeroBlock).getLastD []) (C5pc k i) = false
      then Err.crc else Err.none) = (if i = k + 1 then Err.crc else Err.none) := by
    cases i with
    | zero => simp [C5pc]
    | succ j =>
      rw [getLastD_replicate]
      by_cases hjk : j = k
      · subst hjk
        simp [chk_crc16, crc16_zeroBlock, C5pc]
      · have hne : ¬ (j + 1 = k + 1) := by omega
        simp [chk_crc16, crc16_zeroBlock, C5pc, hjk, hne]
  have hblocks : List.replicate i zeroBlock ++ [zeroBlock] =
      List.replicate (i + 1) zeroBlock := (List.replicate_succ' i zeroBlock).symm
  have hpc : (((0 % 256) <<< 8) ||| (if i = k then 1 else 0) % 256) % 65536 =
      C5pc k (i + 1) := by
    by_cases hik : i = k
    · simp [hik, C5pc]
    · simp [hik, C5pc]
  have hbus : ({ cursor := 8 + 515 * i + 513 + 1 + 1
                 sent := ((((S0 ++ List.replicate (515 * i) 255) ++ [255]) ++
                          List.replicate 512 255) ++ [SPI_FILL_CHAR % 256]) ++
                         [SPI_FILL_CHAR % 256]
                 waits := 1 + i + 1
                 dmas := i + 1 } : Bus) = C5bus S0 (i + 1) := by
    rw [C5bus]
    simp only [Bus.mk.injEq]
    refine ⟨by omega, ?_, by omega, trivial⟩
    rw [show [SPI_FILL_CHAR % 256] = ([255] : List Nat) from rfl,
        show ([255] : List Nat) = List.replicate 1 255 from rfl,
        repFF_absorb, repFF_absorb, repFF_absorb, repFF_absorb,
        show 515 * i + 1 + 512 + 1 + 1 = 515 * (i + 1) by omega]
  rw [hst, hblocks, hpc, hbus]

theorem C5loop_aux (n k : Nat) (S0 : List Nat) :
    ∀ m i, i + m = n → i ≤ min (k + 2) n →
    in_sd_read_blocks_loop true (readEnv n k) m
      (if i = k + 2 then Err.crc else Err.none)
      (List.replicate i zeroBlock) (C5pc k i) (C5bus S0 i) =
    (if k + 2 ≤ n then Err.crc else Err.none,
     List.replicate (min (k + 2) n) zeroBlock,
     C5pc k (min (k + 2) n), C5bus S0 (min (k + 2) n)) := by
  intro m
  induction m with
  | zero =>
    intro i hi hile
    have hin : i = n := by omega
    subst hin
    have hmin : min (k + 2) i = i := by omega
    rw [hmin]
    by_cases h : i = k + 2
    · rw [if_pos h, if_pos (by omega)]
      rfl
    · rw [if_neg h, if_neg (by omega)]
      rfl
  | succ m ih =>
    intro i hi hile
    by_cases hik : i = k + 2
    · rw [if_pos hik, loop_stuck _ _ _ _ _ _ _ (by simp)]
      have hle : k + 2 ≤ n := by omega
      have hmin : min (k + 2) n = k + 2 := by omega
      rw [if_pos hle, hmin, hik]
    · rw [if_neg hik]
      have hlt : i < min (k + 2) n := by omega
      rw [C5step n k S0 i m hlt]
      have hsw : (if i = k + 1 then Err.crc else Err.none) =
          (if i + 1 = k + 2 then Err.crc else Err.none) := by
        by_cases h : i = k + 1
        · rw [if_pos h, if_pos (by omega)]
        · rw [if_neg h, if_neg (by omega)]
      rw [hsw]
      exact ih (i + 1) (by omega) (by omega)

theorem sendPacket_eq (env : Env) (pkt : List Nat) (b : Bus) :
    sendPacket env pkt b =
      { b with cursor := b.cursor + pkt.length, sent := b.sent ++ pkt.map (· % 256) } := by
  induction pkt generalizing b with
  | nil => simp [sendPacket]
  | cons t ts ih =>
    rw [sendPacket, ih]
    simp [sd_spi_write, List.append_assoc]
    omega

theorem C5cmd12spi (n k : Nat) (S0 : List Nat) :
    sd_cmd_spi true (readEnv n k) .CMD12_STOP_TRANSMISSION 0
      (C5bus S0 (min (k + 2) n)) =
    (0, { cursor := 8 + 515 * min (k + 2) n + 8
          sent := ((S0 ++ List.replicate (515 * min (k + 2) n) 255) ++
                   [76, 0, 0, 0, 0, 97]) ++ [255, 255]
          waits := 1 + min (k + 2) n
          dmas := min (k + 2) n }) := by
  have h7 : readEnvBus n k (8 + 515 * min (k + 2) n + 7) = 0 := by
    rw [readEnvBus_post n k 7 (by omega)]
    rfl
  simp only [sd_cmd_spi]
  rw [sendPacket_eq,
      show (cmdPacket true .CMD12_STOP_TRANSMISSION 0).length = 6 from rfl,
      show (cmdPacket true .CMD12_STOP_TRANSMISSION 0).map (· % 256) =
        [76, 0, 0, 0, 0, 97] from rfl]
  rw [if_pos trivial]
  simp only [sd_spi_write]
  rw [resp_poll_hit (readEnv n k) 15 _
    (by show readEnvBus n k (8 + 515 * min (k + 2) n + 7) % 256 &&&
          R1_RESPONSE_RECV = 0
        rw [h7]
        rfl)]
  show ((readEnvBus n k (8 + 515 * min (k + 2) n + 7)) % 256, _) = _
  rw [h7]
  simp [C5bus, Bus.mk.injEq, List.append_assoc, SPI_FILL_CHAR]

theorem C5cmd12 (n k : Nat) (S0 : List Nat) :
    sd_cmd true (readEnv n k) .CMD12_STOP_TRANSMISSION 0 false 0 cardHuge
      (C5bus S0 (min (k + 2) n)) =
    (Err.none, 0, cardHuge,
     { cursor := 8 + 515 * min (k + 2) n + 9
       sent := (((S0 ++ List.replicate (515 * min (k + 2) n) 255) ++
                [76, 0, 0, 0, 0, 97]) ++ [255, 255]) ++ [255]
       waits := 1 + min (k + 2) n + 1
       dmas := min (k + 2) n }) := by
  have h8 : readEnvBus n k (8 + 515 * min (k + 2) n + 8) = 255 := by
    rw [readEnvBus_post n k 8 (by omega)]
    rfl
  simp only [sd_cmd]
  rw [if_pos (Or.inl trivial)]
  rw [if_neg (by simp)]
  rw [show SD_COMMAND_RETRIES = 2 + 1 from rfl]
  rw [sd_cmd_attempts]
  rw [if_neg (by decide : ¬ (false = true))]
  rw [C5cmd12spi n k S0]
  dsimp only
  rw [if_neg (show ¬ ((0 : Nat) = R1_NO_RESPONSE) by decide)]
  rw [if_neg (show ¬ ((0 : Nat) = R1_NO_RESPONSE) by decide)]
  rw [if_neg (show ¬ ((0 : Nat) &&& R1_COM_CRC_ERROR ≠ 0 ∧
    cmdSupported.CMD12_STOP_TRANSMISSION ≠
      cmdSupported.ACMD23_SET_WR_BLK_ERASE_COUNT) by decide)]
  rw [if_neg (show ¬ ((0 : Nat) &&& R1_ILLEGAL_COMMAND ≠ 0) by decide)]
  rw [if_neg (show ¬ ((0 : Nat) &&& R1_ERASE_RESET ≠ 0 ∨
    (0 : Nat) &&& R1_ERASE_SEQUENCE_ERROR ≠ 0) by decide)]
  rw [if_neg (show ¬ ((0 : Nat) &&& R1_ADDRESS_ERROR ≠ 0 ∨
    (0 : Nat) &&& R1_PARAMETER_ERROR ≠ 0) by decide)]
  simp only [sd_cmd_tail]
  rw [wait_ready_hit (readEnv n k) SD_COMMAND_TIMEOUT _
    (by show readEnvBus n k (8 + 515 * min (k + 2) n + 8) % 256 ≠ 0
        rw [h8]
        decide)]

theorem C5cmd18spi (n k : Nat) :
    sd_cmd_spi true (readEnv n k) .CMD18_READ_MULTIPLE_BLOCK 0
      { cursor := 1, sent := [255], waits := 1, dmas := 0 } =
    (0, { cursor := 8, sent := [255, 82, 0, 0, 0, 0, 225, 255], waits := 1,
          dmas := 0 }) := by
  have h7 : readEnvBus n k 7 = 0 := rfl
  simp only [sd_cmd_spi]
  rw [sendPacket_eq,
      show (cmdPacket true .CMD18_READ_MULTIPLE_BLOCK 0).length = 6 from rfl,
      show (cmdPacket true .CMD18_READ_MULTIPLE_BLOCK 0).map (· % 256) =
        [82, 0, 0, 0, 0, 225] from rfl]
  rw [if_neg (show ¬ (cmdSupported.CMD18_READ_MULTIPLE_BLOCK =
        cmdSupported.CMD12_STOP_TRANSMISSION) by decide)]
  rw [resp_poll_hit (readEnv n k) 15 _
    (by show readEnvBus n k 7 % 256 &&& R1_RESPONSE_RECV = 0
        rw [h7]
        rfl)]
  show ((readEnvBus n k 7) % 256, _) = _
  rw [h7]
  simp [Bus.mk.injEq]

theorem C5cmd18 (n k : Nat) :
    sd_cmd true (readEnv n k) .CMD18_READ_MULTIPLE_BLOCK 0 false 0 cardHuge
      Bus.init =
    (Err.none, 0, cardHuge, C5bus [255, 82, 0, 0, 0, 0, 225, 255] 0) := by
  have h0 : readEnvBus n k 0 = 255 := rfl
  simp only [sd_cmd]
  rw [if_neg (show ¬ (cmdSupported.CMD18_READ_MULTIPLE_BLOCK =
        cmdSupported.CMD12_STOP_TRANSMISSION ∨
      cmdSupported.CMD18_READ_MULTIPLE_BLOCK =
        cmdSupported.CMD0_GO_IDLE_STATE) by decide)]
  rw [wait_ready_hit (readEnv n k) SD_COMMAND_TIMEOUT Bus.init
    (by show readEnvBus n k 0 % 256 ≠ 0
        rw [h0]
        decide)]
  rw [if_neg (by simp)]
  rw [show SD_COMMAND_RETRIES = 2 + 1 from rfl]
  rw [sd_cmd_attempts]
  rw [if_neg (by decide : ¬ (false = true))]
  rw [show ({ Bus.init with
        cursor := Bus.init.cursor + 1
        sent := Bus.init.sent ++ [255]
        waits := Bus.init.waits + 1 } : Bus) =
      { cursor := 1, sent := [255], waits := 1, dmas := 0 } from rfl]
  rw [C5cmd18spi n k]
  dsimp only
  rw [if_neg (show ¬ ((0 : Nat) = R1_NO_RESPONSE) by decide)]
  rw [if_neg (show ¬ ((0 : Nat) = R1_NO_RESPONSE) by decide)]
  rw [if_neg (show ¬ ((0 : Nat) &&& R1_COM_CRC_ERROR ≠ 0 ∧
    cmdSupported.CMD18_READ_MULTIPLE_BLOCK ≠
      cmdSupported.ACMD23_SET_WR_BLK_ERASE_COUNT) by decide)]
  rw [if_neg (show ¬ ((0 : Nat) &&& R1_ILLEGAL_COMMAND ≠ 0) by decide)]
  rw [if_neg (show ¬ ((0 : Nat) &&& R1_ERASE_RESET ≠ 0 ∨
    (0 : Nat) &&& R1_ERASE_SEQUENCE_ERROR ≠ 0) by decide)]
  rw [if_neg (show ¬ ((0 : Nat) &&& R1_ADDRESS_ERROR ≠ 0 ∨
    (0 : Nat) &&& R1_PARAMETER_ERROR ≠ 0) by decide)]
  simp only [sd_cmd_tail]
  rfl

theorem C5run (n k : Nat) (h2 : 2 ≤ n) (hk : k < n) :
    sd_read_blocks true (readEnv n k) cardHuge Bus.init 0 n =
    (Err.crc, List.replicate (min (k + 2) n) zeroBlock, cardHuge,
     { cursor := 8 + 515 * min (k + 2) n + 9
       sent := ((([255, 82, 0, 0, 0, 0, 225, 255] ++
                 List.replicate (515 * min (k + 2) n) 255) ++
                [76, 0, 0, 0, 0, 97]) ++ [255, 255]) ++ [255]
       waits := 1 + min (k + 2) n + 1
       dmas := min (k + 2) n },
     opTrace Bus.init
       { cursor := 8 + 515 * min (k + 2) n + 9
         sent := ((([255, 82, 0, 0, 0, 0, 225, 255] ++
                   List.replicate (515 * min (k + 2) n) 255) ++
                  [76, 0, 0, 0, 0, 97]) ++ [255, 255]) ++ [255]
         waits := 1 + min (k + 2) n + 1
         dmas := min (k + 2) n }) := by
  have hlp := C5loop_aux n k [255, 82, 0, 0, 0, 0, 225, 255] n 0 (by omega) (by omega)
  rw [if_neg (by omega : ¬ (0 = k + 2))] at hlp
  rw [show List.replicate 0 zeroBlock = ([] : List (List Nat)) from rfl] at hlp
  rw [show C5pc k 0 = 0 from rfl] at hlp
  simp only [sd_read_blocks, in_sd_read_blocks]
  rw [if_neg (show ¬ (cardHuge.m_Status &&& (STA_NOINIT ||| STA_NODISK) ≠ 0)
    by decide)]
  rw [if_neg (show ¬ ((0 + n) % 2 ^ 64 > cardHuge.sectors) by
    rw [show cardHuge.sectors = 2 ^ 64 - 1 from rfl]
    omega)]
  rw [if_pos (show cardHuge.card_type = CardType.SDCARD_V2HC from rfl)]
  rw [if_neg (by omega : ¬ (n = 1))]
  rw [C5cmd18 n k]
  dsimp only
  rw [if_neg (fun hh => hh rfl)]
  rw [hlp]
  dsimp only
  rw [if_pos (by omega : n > 1)]
  rw [C5cmd12 n k [255, 82, 0, 0, 0, 0, 225, 255]]
  dsimp only
  by_cases hcase : k + 2 ≤ n
  · rw [if_pos hcase]
    rw [if_neg (show ¬ (Err.crc = Err.none ∧
      chk_crc16 true
        ((List.replicate (min (k + 2) n) zeroBlock).getLastD [])
        (C5pc k (min (k + 2) n)) = false) by simp)]
  · rw [if_neg hcase]
    have hnk : n = k + 1 := by omega
    subst hnk
    have hn : min (k + 2) (k + 1) = k + 1 := by omega
    rw [hn]
    rw [getLastD_replicate]
    rw [show C5pc k (k + 1) = 1 from by simp [C5pc]]
    rw [show chk_crc16 true zeroBlock 1 = false from by
      simp [chk_crc16, crc16_zeroBlock]]
    rw [if_pos ⟨rfl, rfl⟩]

/-- C5 (amended): over the C5 family of cooperative card streams (`n` blocks
of zeros whose block `k` alone carries a wrong CRC-16, every token wait and
DMA completion succeeding), a multi-block read of `n` blocks returns the Crc
error, the destination holds the `min (k+2) n` blocks received, blocks
`0..k` hold exactly the data bytes received for them, and the stop-
transmission opcode 0x4C appears exactly once on the wire. -/
theorem C5_crc_fail_multiblock (n k : Nat) (h2 : 2 ≤ n) (hk : k < n) :
    (sd_read_blocks true (readEnv n k) cardHuge Bus.init 0 n).1 = Err.crc ∧
    (sd_read_blocks true (readEnv n k) cardHuge Bus.init 0 n).2.1 =
      List.replicate (min (k + 2) n) zeroBlock ∧
    (sd_read_blocks true (readEnv n k) cardHuge Bus.init 0 n).2.1.take (k + 1) =
      List.replicate (k + 1) zeroBlock ∧
    (sd_read_blocks true (readEnv n k) cardHuge Bus.init 0 n).2.2.2.1.sent.count 76
      = 1 := by
  rw [C5run n k h2 hk]
  refine ⟨rfl, rfl, ?_, ?_⟩
  · dsimp only
    rw [List.take_replicate]
    rw [show min (k + 1) (min (k + 2) n) = k + 1 from by omega]
  · dsimp only
    simp [List.count_append, List.count_replicate]

set_option maxRecDepth 2000 in
/-- C5, counterexample to the unamended claim: in a two-block read whose
first block fails its CRC-16 check but whose second DMA completion wait
fails, the mid-stream wait failure overwrites the pending Crc status and the
operation returns NoResponse, not Crc (station2.c lines 861-863). -/
theorem C5_wait_overwrite_counterexample :
    chk_crc16 true zeroBlock 1 = false ∧
    (sd_read_blocks true envC5ce cardTwo Bus.init 0 2).1 = Err.noResponse ∧
    Err.noResponse ≠ Err.crc := by
  refine ⟨by simp [chk_crc16, crc16_zeroBlock], by decide, by decide⟩

/-- C5 witness: the amended statement instantiated at a two-block read whose
first block is the corrupted one. -/
theorem C5_crc_fail_witness :
    2 ≤ 2 ∧ 0 < 2 ∧
    (sd_read_blocks true (readEnv 2 0) cardHuge Bus.init 0 2).1 = Err.crc :=
  ⟨by decide, by decide, (C5_crc_fail_multiblock 2 0 (by decide) (by decide)).1⟩

end SdModel
